import Mathlib

/-!
Shallow embedding of the FocusGuard RAG pipeline: the retriever
(serv/rag/retrieval/retriever.py), the prompt builders
(serv/rag/generation/prompts.py), the Qdrant vector-store adapter
(serv/rag/vector_store/qdrant_store.py), the orchestrating RAG service
(serv/api/services/rag_service.py) and the conversation route
(serv/api/routes/conversation.py).

Similarity scores (Python floats used only in comparisons) are modelled
as rationals.  External collaborators (embedder backend, Qdrant client,
LLM backend, SQL database) are modelled as oracles supplied through an
environment record; the code under verification is the orchestration
logic that calls them.
-/

/-! ## Generic helpers -/

/-- Python list slicing `l[-n:]`: the last `n` elements (all of them when
`l` has fewer than `n`). -/
def takeLast {α : Type} (n : Nat) (l : List α) : List α :=
  l.drop (l.length - n)

/-- Scan `s` for the first occurrence of `p`; return the remainder of `s`
after that occurrence, or `none` when `p` does not occur. -/
def dropAfterFirst (p : List Char) : List Char → Option (List Char)
  | [] => if p.isEmpty then some [] else none
  | c :: t =>
    if p.isPrefixOf (c :: t) then some ((c :: t).drop p.length)
    else dropAfterFirst p t

/-- Substring test on character lists. -/
def listContains (s p : List Char) : Bool :=
  (dropAfterFirst p s).isSome

/-- Substring test on strings (Python `needle in haystack`). -/
def strContains (haystack needle : String) : Bool :=
  listContains haystack.toList needle.toList

/-- All the given pieces occur in `s`, in the given order, without
overlapping. -/
def containsInOrder : List Char → List (List Char) → Bool
  | _, [] => true
  | s, p :: ps =>
    match dropAfterFirst p s with
    | some rest => containsInOrder rest ps
    | none => false

/-- Lookup in an association-list model of a Python dict
(`d.get(k)`). -/
def assocGet (m : List (String × String)) (k : String) : Option String :=
  (m.find? (fun p => p.1 == k)).map (fun p => p.2)

/-- `d[k] = v` on an association-list dict: replace the value in place
when the key exists (Python dicts keep insertion order on update),
append otherwise. -/
def assocUpdate (m : List (String × String)) (kv : String × String) :
    List (String × String) :=
  if m.any (fun p => p.1 == kv.1) then
    m.map (fun p => if p.1 == kv.1 then kv else p)
  else m ++ [kv]

/-! ## Data model (serv/rag/vector_store/base_store.py) -/

/-- Document dataclass: id, content, optional embedding, metadata.
Metadata values observed in this pipeline are scalar strings, so the
dict is modelled as a string-to-string association list. -/
structure Document where
  id : String
  content : String
  embedding : Option (List ℚ)
  metadata : List (String × String)
deriving Repr, DecidableEq

/-- SearchResult dataclass: matched document, similarity score (higher is
more relevant), 0-based rank. -/
structure SearchResult where
  document : Document
  score : ℚ
  rank : Nat
deriving Repr, DecidableEq

/-! ## Retriever (serv/rag/retrieval/retriever.py) -/

namespace Retriever

/-- Default value of the `min_score_threshold` parameter in the
`Retriever.__init__` signature (retriever.py line 48): `0.0`. -/
def init_default_min_score_threshold : ℚ := 0

/-- Whitespace-run collapsing used by `_preprocess_query`
(`re.sub whitespace-run to single space`); the boolean tracks whether
the previous character was part of a whitespace run. -/
def collapseWsGo : Bool → List Char → List Char
  | _, [] => []
  | lastWs, c :: cs =>
    if c.isWhitespace then
      if lastWs then collapseWsGo true cs
      else ' ' :: collapseWsGo true cs
    else c :: collapseWsGo false cs

/-- `str.strip()`: drop leading and trailing whitespace. -/
def stripWs (l : List Char) : List Char :=
  ((l.dropWhile Char.isWhitespace).reverse.dropWhile Char.isWhitespace).reverse

/-- `Retriever._preprocess_query`: strip, collapse internal whitespace
runs to a single space, remove control characters (0x00-0x1F and 0x7F).
ASCII whitespace models the Python character class. -/
def preprocess_query (query : String) : String :=
  let cleaned := collapseWsGo false (stripWs query.toList)
  let cleaned := cleaned.filter (fun c => !(c.toNat ≤ 0x1F || c.toNat == 0x7F))
  String.mk cleaned

/-- `Retriever._build_filter`: allow-listed context fields, then explicit
`filter_metadata` entries override overlapping keys; `None` when the
combined dict is empty. -/
def build_filter (context : Option (List (String × String)))
    (filter_metadata : Option (List (String × String))) :
    Option (List (String × String)) :=
  let combined : List (String × String) :=
    match context with
    | none => []
    | some ctx =>
      ["user_id", "category", "tags", "session_id"].filterMap
        (fun f => (assocGet ctx f).map (fun v => (f, v)))
  let combined :=
    match filter_metadata with
    | none => combined
    | some fm => fm.foldl assocUpdate combined
  if combined.isEmpty then none else some combined

/-- Deduplication loop of `Retriever._post_process`: walk the list,
keep a result only when its document id has not been seen yet. -/
def dedupeById : List SearchResult → List String → List SearchResult
  | [], _ => []
  | r :: rs, seen =>
    if seen.contains r.document.id then dedupeById rs seen
    else r :: dedupeById rs (r.document.id :: seen)

/-- `Retriever._post_process`: drop results scoring below
`min_score_threshold`, then deduplicate by document id keeping the
first occurrence. -/
def post_process (min_score_threshold : ℚ) (results : List SearchResult) :
    List SearchResult :=
  let filtered := results.filter (fun r => min_score_threshold ≤ r.score)
  dedupeById filtered []

/-- Oracles for the two collaborators the retriever composes. -/
structure Env where
  embed : String → List ℚ
  search : List ℚ → Nat → Option (List (String × String)) → List SearchResult

/-- `Retriever.retrieve`: preprocess, embed, build the combined filter,
search the vector store, post-process. -/
def retrieve (env : Env) (enable_preprocessing : Bool)
    (min_score_threshold : ℚ) (query : String) (top_k : Nat)
    (context : Option (List (String × String)))
    (filter_metadata : Option (List (String × String))) : List SearchResult :=
  let processed := if enable_preprocessing then preprocess_query query else query
  let emb := env.embed processed
  let combined := build_filter context filter_metadata
  let results := env.search emb top_k combined
  post_process min_score_threshold results

/-- The raw store results inside one `retrieve` call, before
post-processing. -/
def rawResults (env : Env) (enable_preprocessing : Bool) (query : String)
    (top_k : Nat) (context : Option (List (String × String)))
    (filter_metadata : Option (List (String × String))) : List SearchResult :=
  env.search
    (env.embed (if enable_preprocessing then preprocess_query query else query))
    top_k (build_filter context filter_metadata)

end Retriever

namespace RAGService

/-- The `min_score_threshold` value the RAG service passes when it
constructs its Retriever (rag_service.py line 68). -/
def retriever_min_score_threshold : ℚ := mkRat 3 10

end RAGService

/-! ## Stats-query detection (rag_service.py, `_is_stats_query`)

`_is_stats_query` lowercases the query and applies six regular
expressions with `re.search`.  Each pattern is a sequence of
word-boundary-delimited word alternatives separated either by pure
whitespace (a Python whitespace-run) or by an arbitrary gap (dot-star).
On such patterns `re.search` semantics coincide with a token-level
reading: split the text into maximal word-character runs and test for
exactly-equal tokens at the required relative positions.  The embedding
below implements that token-level reading (ASCII word and whitespace
classes model the Python classes). -/

/-- Python word-class character (ASCII reading). -/
def isWordChar (c : Char) : Bool := c.isAlphanum || c == '_'

/-- Tokenizer: returns the list of (gap, word) pairs where `word` is a
maximal run of word characters and `gap` is the run of non-word
characters immediately before it. -/
def tokenizeGo : List Char → List Char → List Char → List (List Char × List Char)
  | [], gap, word =>
    if word.isEmpty then [] else [(gap.reverse, word.reverse)]
  | c :: cs, gap, word =>
    if isWordChar c then tokenizeGo cs gap (c :: word)
    else if word.isEmpty then tokenizeGo cs (c :: gap) word
    else (gap.reverse, word.reverse) :: tokenizeGo cs [c] []

/-- Tokens of the lowercased query (`query.lower()` modelled as
character-wise lowering); each token carries a flag telling whether the
gap before it is a nonempty pure-whitespace run (the separator accepted
by a whitespace-run pattern element). -/
def tokenList (q : String) : List (Bool × List Char) :=
  (tokenizeGo (q.toList.map Char.toLower) [] []).map
    (fun p => (!p.1.isEmpty && p.1.all Char.isWhitespace, p.2))

/-- Does some token of `toks` equal a word of `ws`? -/
def containsWordIn (toks : List (Bool × List Char)) (ws : List (List Char)) : Bool :=
  toks.any (fun t => ws.contains t.2)

/-- Is there a token from `A` strictly before a token from `B`?
(the shape of an `A`-word, dot-star, `B`-word pattern). -/
def containsWordPair : List (Bool × List Char) → List (List Char) → List (List Char) → Bool
  | [], _, _ => false
  | t :: ts, A, B => (A.contains t.2 && containsWordIn ts B) || containsWordPair ts A B

/-- Match the tail of a whitespace-separated word run: each remaining
token must follow a pure-whitespace gap and equal the next word. -/
def matchTail : List (Bool × List Char) → List (List Char) → Option (List (Bool × List Char))
  | ts, [] => some ts
  | [], _ :: _ => none
  | (b, w) :: ts, x :: xs => if b && w == x then matchTail ts xs else none

/-- Does a whitespace-separated run of the given words occur somewhere
in the token list? -/
def hasRun : List (Bool × List Char) → List (List Char) → Bool
  | _, [] => true
  | [], _ :: _ => false
  | (_, w) :: ts, x :: xs =>
    (w == x && (matchTail ts xs).isSome) || hasRun ts (x :: xs)

/-- Does a whitespace-separated run of the given words occur, followed
(anywhere later) by a token from `B`? -/
def hasRunThenWord : List (Bool × List Char) → List (List Char) → List (List Char) → Bool
  | [], _, _ => false
  | (_, w) :: ts, run, B =>
    (match run with
     | [] => false
     | x :: xs =>
       w == x &&
         (match matchTail ts xs with
          | some rest => containsWordIn rest B
          | none => false)) ||
    hasRunThenWord ts run B

/-- Character list of a string literal (pattern words). -/
def pw (s : String) : List Char := s.toList

namespace RAGService

/-- `RAGService._is_stats_query`: the six stats-keyword patterns of
rag_service.py lines 433-440, in order, applied to the lowercased
query. -/
def is_stats_query (query : String) : Bool :=
  let toks := tokenList query
  containsWordPair toks [pw "analyze", pw "analyse"]
      [pw "trend", pw "stat", pw "progress", pw "performance"] ||
  containsWordPair toks [pw "my", pw "mine"]
      [pw "trend", pw "stat", pw "progress", pw "performance", pw "session"] ||
  ([pw "am", pw "have"].any (fun v =>
      hasRunThenWord toks [pw "how", v, pw "i"]
        [pw "doing", pw "performing", pw "progressing"])) ||
  ([pw "show", pw "give", pw "tell"].any (fun v =>
      hasRun toks [v, pw "me", pw "my"])) ||
  ([pw "focus", pw "productivity", pw "distraction"].any (fun a =>
      [pw "pattern", pw "trend", pw "stat"].any (fun b =>
        hasRun toks [pw "my", a, b]))) ||
  ([pw "recent", pw "latest"].any (fun a =>
      [pw "session", pw "progress", pw "performance"].any (fun b =>
        hasRun toks [a, b])))

end RAGService


/-! ## Response schema (serv/api/schemas/rag.py) -/

/-- SourceDocument response model: truncated content snippet, source
filename, section title, relevance score, optional category. -/
structure SourceDocument where
  content : String
  source : String
  section_title : String
  score : ℚ
  category : Option String
deriving Repr, DecidableEq

/-- RAGQueryResponse response model. -/
structure RAGQueryResponse where
  answer : String
  sources : Option (List SourceDocument)
  query : String
  model_used : String
deriving Repr, DecidableEq

/-- Python slice `s[:n]` on a string (character count). -/
def pyTake (n : Nat) (s : String) : String :=
  String.mk (s.toList.take n)

/-- The source-document assembly both query paths share
(rag_service.py lines 226-235 and 384-393): content truncated to 300
characters with an ellipsis when longer, metadata lookups with their
defaults, original score. -/
def mkSourceDocument (r : SearchResult) : SourceDocument :=
  { content :=
      if r.document.content.length > 300 then pyTake 300 r.document.content ++ "..."
      else r.document.content
    source := (assocGet r.document.metadata "source").getD "unknown"
    section_title := (assocGet r.document.metadata "section_title").getD "N/A"
    score := r.score
    category := assocGet r.document.metadata "category" }

/-! ## Prompt builders (serv/rag/generation/prompts.py) -/

/-- A conversation message consumed read-only by the RAG core:
role ("user" or "assistant") and content. -/
structure ConversationTurn where
  role : String
  content : String
deriving Repr, DecidableEq

/-- The Alex persona system prompt (prompts.py). -/
def PRODUCTIVITY_COACH_PROMPT : String :=
  "You are Alex, a friendly and empathetic AI Focus Coach for FocusGuard. Think of yourself as a supportive friend who genuinely cares about helping users build better focus habits.\n\n🎯 Your Personality:\n- Warm, conversational, and never robotic  \n- Use natural language, contractions, and occasional emojis (✨, 🎯, 💡, 🌱, 👏)\n- Celebrate small wins enthusiastically\n- Show genuine empathy for struggles with focus\n- Be encouraging without being cheesy or over-the-top\n\n📚 Your Expertise:\n- Evidence-based productivity techniques (Pomodoro, Deep Work, etc.)\n- Focus psychology and distraction management\n- Building sustainable habits (not quick fixes)\n- Time management and goal setting\n- Study strategies and learning optimization\n\n💬 How to Respond:\n\n**For greetings & casual chat:**\n- Be warm and personable: \"Hey there! 👋 I\x27m Alex, your focus coach. What\x27s on your mind today?\"\n- Ask follow-up questions to understand their needs\n- Keep it natural and conversational\n\n**For productivity questions:**\n- Use context documents when available - they contain research-backed advice\n- Explain WHY a technique works, not just HOW\n- Give specific, actionable steps they can try right now\n- Relate advice to their FocusGuard experience (sessions, garden, streaks)\n- Keep responses 2-4 paragraphs max\n\n**For stats/progress questions:**\n- Be specific with numbers - celebrate actual achievements\n- Compare to their past performance when possible\n- Point out patterns they might not see\n- End with one concrete next action\n\n**Tone Guidelines:**\n✅ \"I totally get it - phone distractions are tough! Let\x27s work on this together...\"\n✅ \"That\x27s awesome progress! 🎉 Your 7-day streak shows real commitment...\"\n✅ \"Here\x27s what I\x27d suggest: try the 2-minute rule...\"\n❌ \"Phone distractions can negatively impact productivity metrics...\"\n❌ \"It is recommended that you implement deep work strategies...\"\n❌ \"Your performance indicators show improvement...\"\n\nRemember: You\x27re a coach, not a manual. Be human, be helpful, be genuine."

/-- The stats-analysis system prompt (prompts.py). -/
def STATS_ANALYSIS_PROMPT : String :=
  "You are an expert productivity analyst helping users understand their focus patterns and progress.\n\nYour role:\n- Analyze user\x27s session data, trends, and statistics\n- Identify patterns in focus time, streaks, and productivity\n- Provide data-driven insights and recommendations\n- Be specific, quantitative, and actionable\n- Celebrate wins and progress\n- Suggest evidence-based improvements\n\nGuidelines:\n- Reference specific numbers from their stats (XP, sessions, streaks, etc.)\n- Compare current performance to past trends when available\n- Highlight both achievements and areas for improvement\n- Keep insights concise and actionable (2-3 key points)\n- End with one specific action they can take next\n- Be encouraging but honest about challenges\n"

/-- The user-statistics record assembled by `_fetch_user_stats`
(rag_service.py lines 505-521).  The two derived float displays
(completion rate, average blink rate) are carried as rationals; the
model renders numbers with `toString`, standing in for Python numeral
formatting. -/
structure UserStats where
  username : String
  level : Nat
  xp_points : Nat
  total_sessions : Nat
  completed_sessions : Nat
  completion_rate : ℚ
  total_focus_minutes : Nat
  current_streak : Nat
  longest_streak : Nat
  last7_sessions_count : Nat
  last7_completed_count : Nat
  last7_focus_minutes : Nat
  last7_avg_blink_rate : Option ℚ
deriving Repr, DecidableEq

/-- `build_stats_analysis_prompt` (prompts.py lines 242-300): stats
block, optional up-to-2 context tips, question, closing instruction. -/
def build_stats_analysis_prompt (query : String) (user_stats : UserStats)
    (context_documents : List String) : String :=
  let stats_text :=
    "User Profile:\n- Username: " ++ user_stats.username ++
    "\n- Level: " ++ toString user_stats.level ++
    "\n- Total XP: " ++ toString user_stats.xp_points ++ " points" ++
    "\n- Current Streak: " ++ toString user_stats.current_streak ++ " days" ++
    "\n- Longest Streak: " ++ toString user_stats.longest_streak ++ " days" ++
    "\n\nOverall Performance:\n- Total Sessions: " ++ toString user_stats.total_sessions ++
    "\n- Completed Sessions: " ++ toString user_stats.completed_sessions ++
    "\n- Completion Rate: " ++ toString user_stats.completion_rate ++ "%" ++
    "\n- Total Focus Time: " ++ toString user_stats.total_focus_minutes ++ " minutes" ++
    "\n\nLast 7 Days:\n- Sessions Started: " ++ toString user_stats.last7_sessions_count ++
    "\n- Sessions Completed: " ++ toString user_stats.last7_completed_count ++
    "\n- Focus Minutes: " ++ toString user_stats.last7_focus_minutes ++ "\n"
  let stats_text :=
    match user_stats.last7_avg_blink_rate with
    | some abr =>
      stats_text ++ "- Avg Blink Rate: " ++ toString abr ++
        " blinks/min (indicator of screen focus)\n"
    | none => stats_text
  let context_section :=
    if context_documents.isEmpty then ""
    else
      "\n\nRelevant Productivity Tips:\n" ++
        String.intercalate "\n\n"
          (context_documents.enum.map
            (fun p => "Tip " ++ toString (p.1 + 1) ++ ": " ++ p.2)) ++
        "\n"
  STATS_ANALYSIS_PROMPT ++ "\n\n" ++ stats_text ++ "\n" ++ context_section ++
    "\n\nUser Question: " ++ query ++
    "\n\nProvide a data-driven analysis with specific insights based on their stats. Be encouraging and actionable."

/-- History line rendering inside `build_conversation_aware_prompt`:
the role label is "User" for user turns and "You (Alex)" otherwise. -/
def historyLine (m : ConversationTurn) : String :=
  (if m.role == "user" then "User" else "You (Alex)") ++ ": " ++ m.content

/-- The numbered knowledge-base-excerpt block of
`build_conversation_aware_prompt`. -/
def convContextText (context_documents : List String) : String :=
  String.intercalate "\n\n"
    (context_documents.enum.map
      (fun p => "Knowledge Base Excerpt " ++ toString (p.1 + 1) ++ ": " ++ p.2))

/-- The closing instruction of `build_conversation_aware_prompt`. -/
def convClosing : String :=
  "\n\nRespond naturally, considering the conversation history above. Reference previous messages when relevant (e.g., \"As we discussed earlier...\" or \"Building on what I suggested...\"). Keep your response conversational and helpful."

/-- `build_conversation_aware_prompt` (prompts.py lines 303-364):
system prompt, optional block with the last six history turns, numbered
knowledge-base excerpts, the current question, closing instruction. -/
def build_conversation_aware_prompt (query : String)
    (context_documents : List String)
    (conversation_history : List ConversationTurn)
    (system_prompt : String) : String :=
  let history_text :=
    if conversation_history.length > 0 then
      "\n\nPrevious Conversation:\n" ++
        String.intercalate "\n" ((takeLast 6 conversation_history).map historyLine) ++
        "\n"
    else ""
  system_prompt ++ "\n" ++ history_text ++
    "\n\nKnowledge Base Context:\n" ++ convContextText context_documents ++
    "\n\nCurrent User Message: " ++ query ++ convClosing

/-! ## RAG service orchestrator (serv/api/services/rag_service.py) -/

/-- A Python exception surfacing through the pipeline.  The flag marks a
`RuntimeError` (the route treats those specially). -/
structure RagError where
  msg : String
  isRuntimeError : Bool
deriving Repr, DecidableEq

/-- One call to `generator.generate`: the query, the `context_documents`
list, and the `system_prompt` argument (`none` models an omitted
argument, `some ""` the explicitly passed empty string). -/
structure GenRequest where
  query : String
  context_documents : List String
  system_prompt : Option String
deriving Repr, DecidableEq

/-- Oracles for the collaborators of the RAG service: the generator
(its `model` attribute and its `generate` outcome), the inner body of
`_fetch_user_stats` (database access; `none` models the empty dict it
returns when the user is missing), `get_collection_info` reduced to the
`points_count` it yields, and `retriever.retrieve` as a function of
query, `top_k` and metadata filter. -/
structure RagEnv where
  generatorModel : String
  generate : GenRequest → Except RagError String
  fetchUserStatsDb : String → Except RagError (Option UserStats)
  collectionInfo : Except RagError Nat
  retrieveResults : String → Nat → Option (List (String × String)) →
    Except RagError (List SearchResult)

namespace RAGService

/-- `RAGService._fetch_user_stats`: the body runs under a blanket
`except` that logs and returns the empty dict, so a database exception
degrades to `none` instead of propagating. -/
def fetch_user_stats (env : RagEnv) (user_id : String) : Option UserStats :=
  match env.fetchUserStatsDb user_id with
  | .ok s => s
  | .error _ => none

/-- The conversational-turn test of both query paths (rag_service.py
lines 162 and 314): no results, or the first score below 0.5. -/
def isConversational (search_results : List SearchResult) : Bool :=
  match search_results with
  | [] => true
  | r :: _ => decide (r.score < mkRat 1 2)

/-- The inline conversational prompt of `RAGService.query`
(lines 172-176). -/
def conversationalPrompt (query : String) : String :=
  PRODUCTIVITY_COACH_PROMPT ++ "\n\nUser Message: " ++ query ++
    "\n\nRespond naturally and helpfully. If it\x27s a greeting, introduce yourself warmly. If it\x27s a question you can help with, provide guidance."

/-- The generator call made on the conversational branch of
`RAGService.query`: the prompt is a function of the query alone, and
the explicit `system_prompt=""`. -/
def conversationalGenRequest (query : String) : GenRequest :=
  { query := query
    context_documents := [conversationalPrompt query]
    system_prompt := some "" }

/-- The fixed ingestion-instructions message returned when the knowledge
base is empty (rag_service.py lines 129-141). -/
def empty_kb_message : String :=
  "I\x27m your AI productivity coach, but it looks like the knowledge base is empty right now.\n\nTo enable AI-powered coaching, please run the knowledge base ingestion:\n\n**Steps:**\n1. Open a terminal\n2. Navigate to the `serv` directory\n3. Run: `python -m rag.ingest_knowledge_base`\n4. Wait for all documents to be ingested\n\nOnce complete, I\x27ll be able to provide personalized productivity tips, focus strategies, and study guidance based on 40+ research-backed documents!\n\nIn the meantime, here\x27s some general advice: The Pomodoro Technique (25 minutes of focused work followed by 5-minute breaks) is a great starting point for improving focus and productivity."

/-- Which branch of the query flow produced the response. -/
inductive QueryBranch
  | emptyKb
  | conversational
  | statsAnalysis
  | standardRag
deriving Repr, DecidableEq

/-- Observable outcome of one `RAGService.query` call: the response, the
trace of generator calls, the branch taken, whether the caller awaited
`initialize()` inline before proceeding (the blocking path of lines
101-102), whether a user-stats fetch ran, and the stats context it
produced. -/
structure QueryOutcome where
  response : RAGQueryResponse
  genCalls : List GenRequest
  branch : QueryBranch
  blockedOnInit : Bool
  statsFetched : Bool
  statsContext : Option UserStats
deriving Repr, DecidableEq

/-- `RAGService.query` (rag_service.py lines 78-257).  Control flow in
source order: inline `await initialize()` when not initialized; stats
detection and optional stats fetch; category filter; empty-knowledge-
base check, whose own `try/except` swallows a `get_collection_info`
failure and continues; retrieval; conversational classification; one of
the three generation branches; source assembly.  Exceptions inside the
main `try` are logged and re-raised, modelled by `Except.error`
propagation. -/
def query (env : RagEnv) (initialized : Bool) (q : String) (top_k : Nat)
    (category_filter : Option String) (include_sources : Bool)
    (user_id : Option String) (db : Bool) : Except RagError QueryOutcome :=
  let blocked := !initialized
  let is_stats := is_stats_query q
  let statsFetched := is_stats && user_id.isSome && db
  let user_stats_context : Option UserStats :=
    match user_id with
    | some uid => if is_stats && db then fetch_user_stats env uid else none
    | none => none
  let filter_metadata := category_filter.map (fun c => [("category", c)])
  let doc_count : Option Nat :=
    match env.collectionInfo with
    | .ok n => some n
    | .error _ => none
  if doc_count = some 0 then
    .ok { response :=
            { answer := empty_kb_message
              sources := if include_sources then some [] else none
              query := q
              model_used := "system_message" }
          genCalls := []
          branch := .emptyKb
          blockedOnInit := blocked
          statsFetched := statsFetched
          statsContext := user_stats_context }
  else
    match env.retrieveResults q top_k filter_metadata with
    | .error e => .error e
    | .ok search_results =>
      if isConversational search_results then
        let req := conversationalGenRequest q
        match env.generate req with
        | .error e => .error e
        | .ok answer =>
          .ok { response :=
                  { answer := answer
                    sources := if include_sources then some [] else none
                    query := q
                    model_used := env.generatorModel }
                genCalls := [req]
                branch := .conversational
                blockedOnInit := blocked
                statsFetched := statsFetched
                statsContext := user_stats_context }
      else
        let context_docs := search_results.map (fun r => r.document.content)
        let statsPrompt :=
          if is_stats then
            user_stats_context.map
              (fun stats => build_stats_analysis_prompt q stats (context_docs.take 2))
          else none
        let req : GenRequest :=
          match statsPrompt with
          | some sp =>
            { query := q, context_documents := [sp], system_prompt := some "" }
          | none =>
            { query := q, context_documents := context_docs, system_prompt := none }
        match env.generate req with
        | .error e => .error e
        | .ok answer =>
          .ok { response :=
                  { answer := answer
                    sources :=
                      if include_sources then
                        some (search_results.map mkSourceDocument)
                      else none
                    query := q
                    model_used := env.generatorModel }
                genCalls := [req]
                branch := if statsPrompt.isSome then .statsAnalysis else .standardRag
                blockedOnInit := blocked
                statsFetched := statsFetched
                statsContext := user_stats_context }

/-- History line of the stats branch of `query_with_conversation`
(rag_service.py line 357): raw role, content truncated to 100
characters, unconditional ellipsis. -/
def statsHistoryLine (m : ConversationTurn) : String :=
  "- " ++ m.role ++ ": " ++ pyTake 100 m.content ++ "..."

/-- The block appended to the stats prompt when history is present
(rag_service.py lines 355-360): summary of the last three turns. -/
def recentConversationBlock (history : List ConversationTurn) : String :=
  "\n\nRecent Conversation:\n" ++
    String.intercalate "\n" ((takeLast 3 history).map statsHistoryLine) ++
    "\n\nConsider the conversation context when providing insights."

/-- The stats prompt of the stats branch of `query_with_conversation`
(rag_service.py lines 346-360): the stats-analysis prompt over the top
two context documents, with the recent-conversation summary appended
when history is present. -/
def statsPromptWithHistory (q : String) (stats : UserStats)
    (context_docs : List String) (history : List ConversationTurn) : String :=
  let sp := build_stats_analysis_prompt q stats (context_docs.take 2)
  if history.isEmpty then sp
  else sp ++ recentConversationBlock history

/-- Observable outcome of one `RAGService.query_with_conversation`
call. -/
structure ConvOutcome where
  response : RAGQueryResponse
  genCalls : List GenRequest
  branch : QueryBranch
  blockedOnInit : Bool
  statsContext : Option UserStats
deriving Repr, DecidableEq

/-- `RAGService.query_with_conversation` (rag_service.py lines
259-404).  Differences from `query`: no empty-knowledge-base check; the
conversational branch is excluded for stats queries and always returns
`sources = []`; the non-conversational branches build
conversation-aware prompts; sources are attached only when requested
and nonempty. -/
def query_with_conversation (env : RagEnv) (initialized : Bool)
    (q : String) (conversation_history : List ConversationTurn)
    (top_k : Nat) (category_filter : Option String) (include_sources : Bool)
    (user_id : Option String) (db : Bool) : Except RagError ConvOutcome :=
  let blocked := !initialized
  let is_stats := is_stats_query q
  let user_stats_context : Option UserStats :=
    match user_id with
    | some uid => if is_stats && db then fetch_user_stats env uid else none
    | none => none
  let filter_metadata := category_filter.map (fun c => [("category", c)])
  match env.retrieveResults q top_k filter_metadata with
  | .error e => .error e
  | .ok search_results =>
    if isConversational search_results && !is_stats then
      let prompt := build_conversation_aware_prompt q [] conversation_history
        PRODUCTIVITY_COACH_PROMPT
      let req : GenRequest :=
        { query := q, context_documents := [prompt], system_prompt := some "" }
      match env.generate req with
      | .error e => .error e
      | .ok answer =>
        .ok { response :=
                { answer := answer
                  sources := some []
                  query := q
                  model_used := env.generatorModel }
              genCalls := [req]
              branch := .conversational
              blockedOnInit := blocked
              statsContext := user_stats_context }
    else
      let context_docs := search_results.map (fun r => r.document.content)
      let statsPrompt :=
        if is_stats then
          user_stats_context.map (fun stats =>
            statsPromptWithHistory q stats context_docs conversation_history)
        else none
      let req : GenRequest :=
        match statsPrompt with
        | some sp =>
          { query := q, context_documents := [sp], system_prompt := some "" }
        | none =>
          { query := q
            context_documents :=
              [build_conversation_aware_prompt q context_docs
                conversation_history PRODUCTIVITY_COACH_PROMPT]
            system_prompt := some "" }
      match env.generate req with
      | .error e => .error e
      | .ok answer =>
        .ok { response :=
                { answer := answer
                  sources :=
                    if include_sources && !search_results.isEmpty then
                      some (search_results.map mkSourceDocument)
                    else none
                  query := q
                  model_used := env.generatorModel }
              genCalls := [req]
              branch := if statsPrompt.isSome then .statsAnalysis else .standardRag
              blockedOnInit := blocked
              statsContext := user_stats_context }

end RAGService

/-! ## Conversation route (serv/api/routes/conversation.py) -/

namespace ConversationRoute

/-- The history-derived context of the route-level fallback
(conversation.py lines 191-194): the last four turns as
"role: content" lines, empty string when there is no history. -/
def fallbackContextText (history : List ConversationTurn) : String :=
  if history.isEmpty then ""
  else
    String.intercalate "\n"
      ((takeLast 4 history).map (fun m => m.role ++ ": " ++ m.content))

/-- The generator call of the route-level fallback: history context only
(no retrieval), `system_prompt` omitted. -/
def fallbackGenRequest (q : String) (history : List ConversationTurn) :
    GenRequest :=
  { query := q
    context_documents :=
      if fallbackContextText history == "" then []
      else [fallbackContextText history]
    system_prompt := none }

/-- Observable outcome of one POST /conversations/query handling (the
RAG part of the route): the response, the generator calls, how many
background `initialize()` tasks this request scheduled with
`asyncio.create_task`, and whether the request awaited initialization
inline. -/
structure RouteOutcome where
  response : RAGQueryResponse
  genCalls : List GenRequest
  initTasksScheduled : Nat
  blockedOnInit : Bool
deriving Repr, DecidableEq

/-- Lowercased containment test (`"initializing" in str(e).lower()`). -/
def lowerContains (s pat : String) : Bool :=
  listContains (s.toList.map Char.toLower) pat.toList

/-- The RAG-dispatch section of the `query_with_conversation` route
(conversation.py lines 174-246).  When the service is not initialized:
schedule one background `initialize()` task, answer directly through
the generator with history-only context, and tag `model_used` with
" (fallback - RAG initializing)".  Otherwise call
`RAGService.query_with_conversation` with no category filter; a
`RuntimeError` mentioning initialization falls back to the direct
generator with the " (fallback - RAG error)" tag, any other error
re-raises.  (On that error-fallback path the source omits the required
`query` field of `RAGQueryResponse`; the model carries the query.) -/
def handle (env : RagEnv) (initialized : Bool) (q : String)
    (history : List ConversationTurn) (top_k : Nat)
    (include_sources : Bool) (user_id : Option String) (db : Bool) :
    Except RagError RouteOutcome :=
  if !initialized then
    let req := fallbackGenRequest q history
    match env.generate req with
    | .error e => .error e
    | .ok answer =>
      .ok { response :=
              { query := q
                answer := answer
                sources := none
                model_used := env.generatorModel ++ " (fallback - RAG initializing)" }
            genCalls := [req]
            initTasksScheduled := 1
            blockedOnInit := false }
  else
    match RAGService.query_with_conversation env initialized q history top_k
        none include_sources user_id db with
    | .ok out =>
      .ok { response := out.response
            genCalls := out.genCalls
            initTasksScheduled := 0
            blockedOnInit := out.blockedOnInit }
    | .error e =>
      if e.isRuntimeError &&
          (lowerContains e.msg "initializing" ||
           lowerContains e.msg "failed to initialize") then
        let req := fallbackGenRequest q history
        match env.generate req with
        | .error e2 => .error e2
        | .ok answer =>
          .ok { response :=
                  { query := q
                    answer := answer
                    sources := none
                    model_used := env.generatorModel ++ " (fallback - RAG error)" }
                genCalls := [req]
                initTasksScheduled := 0
                blockedOnInit := false }
      else .error e

end ConversationRoute

/-! ## Initialization under cooperative concurrency
(rag_service.py lines 31-76)

`initialize()` checks `self._initialized`, and when it is unset
constructs the embedder and vector store, suspends at
`await self.vector_store.initialize()`, then on resumption constructs
the retriever and generator and finally sets `self._initialized = True`.
There is no in-flight guard between the check and the flag update, so
the body is modelled as a two-step task: the first step performs the
check and (when the flag is unset) the heavyweight construction before
suspending at the await point; the second step completes and sets the
flag. -/

namespace InitModel

/-- Progress of one `initialize()` call. -/
inductive InitPhase
  | notStarted
  | suspended
  | finished
deriving Repr, DecidableEq

/-- Shared state: the `_initialized` flag, how many times the component
construction ran, and the phase of each in-flight call. -/
structure InitSystem where
  initialized : Bool
  constructions : Nat
  tasks : List InitPhase
deriving Repr, DecidableEq

/-- Run one cooperative step of task `i`. -/
def stepTask (s : InitSystem) (i : Nat) : InitSystem :=
  match s.tasks.get? i with
  | none => s
  | some .notStarted =>
    if s.initialized then { s with tasks := s.tasks.set i .finished }
    else
      { s with
          constructions := s.constructions + 1
          tasks := s.tasks.set i .suspended }
  | some .suspended =>
    { s with initialized := true, tasks := s.tasks.set i .finished }
  | some .finished => s

/-- Run a schedule (a list of task indices) over `n` concurrent
`initialize()` calls starting from the uninitialized service. -/
def runSchedule (n : Nat) (sched : List Nat) : InitSystem :=
  sched.foldl stepTask
    { initialized := false
      constructions := 0
      tasks := List.replicate n .notStarted }

end InitModel

/-! ## Qdrant vector-store adapter
(serv/rag/vector_store/qdrant_store.py)

The Qdrant collection is modelled as an association list from point id
to stored point; the client `upsert` primitive replaces the point held
under an existing id and inserts new ids, and `search` scores the
stored vectors against the query vector (Qdrant cosine distance on
normalized vectors is their dot product), filters by payload
conditions, sorts by descending score and truncates to `top_k`. -/

namespace QdrantVectorStore

/-- A stored point: vector plus payload (the document content together
with its metadata fields; the `created_at` timestamp the adapter adds
is time-dependent and not modelled). -/
structure StorePoint where
  vector : List ℚ
  content : String
  payload : List (String × String)
deriving Repr, DecidableEq

/-- The collection state. -/
abbrev StoreState := List (String × StorePoint)

/-- Client-level upsert of a single point: overwrite the point stored
under the id when present, append otherwise. -/
def upsertPoint (st : StoreState) (id : String) (p : StorePoint) : StoreState :=
  if st.any (fun e => e.1 == id) then
    st.map (fun e => if e.1 == id then (id, p) else e)
  else st ++ [(id, p)]

/-- The `ValueError` raised on a documents/embeddings length
mismatch. -/
inductive AddError
  | valueError (msg : String)
deriving Repr, DecidableEq

/-- The `ValueError` message text of `add_documents`. -/
def mismatchMsg (d e : Nat) : String :=
  "Documents count (" ++ toString d ++ ") must match embeddings count (" ++
    toString e ++ ")"

/-- `QdrantVectorStore.add_documents` (qdrant_store.py lines 144-204):
raise `ValueError` when the two lists have different lengths, return
unchanged on an empty batch, otherwise build one point per document
with the document id as point id and batch-upsert. -/
def add_documents (st : StoreState) (documents : List Document)
    (embeddings : List (List ℚ)) : Except AddError StoreState :=
  if documents.length ≠ embeddings.length then
    .error (.valueError (mismatchMsg documents.length embeddings.length))
  else if documents.isEmpty then .ok st
  else
    .ok ((documents.zip embeddings).foldl
      (fun s de =>
        upsertPoint s de.1.id
          { vector := de.2, content := de.1.content, payload := de.1.metadata })
      st)

/-- Dot product (Qdrant cosine scoring over normalized vectors). -/
def dot (a b : List ℚ) : ℚ :=
  ((a.zip b).map (fun p => p.1 * p.2)).sum

/-- Metadata filter: every condition key must hold the given value in
the payload (AND semantics of the `must` clause). -/
def matchesFilter (payload : List (String × String))
    (f : Option (List (String × String))) : Bool :=
  match f with
  | none => true
  | some conds => conds.all (fun kv => assocGet payload kv.1 == some kv.2)

/-- Stable insertion into a descending-by-score list. -/
def insertDesc (x : String × StorePoint × ℚ) :
    List (String × StorePoint × ℚ) → List (String × StorePoint × ℚ)
  | [] => [x]
  | y :: ys => if y.2.2 < x.2.2 then x :: y :: ys else y :: insertDesc x ys

/-- Sort hits by descending score. -/
def sortDesc (l : List (String × StorePoint × ℚ)) :
    List (String × StorePoint × ℚ) :=
  l.foldr insertDesc []

/-- `QdrantVectorStore.search` (qdrant_store.py lines 206-288): score
the filtered points, return the `top_k` best as `SearchResult`s with
embeddings stripped and ranks assigned by position. -/
def search (st : StoreState) (query_embedding : List ℚ) (top_k : Nat)
    (filter_metadata : Option (List (String × String))) : List SearchResult :=
  let hits := (st.filter (fun e => matchesFilter e.2.payload filter_metadata)).map
    (fun e => (e.1, e.2, dot query_embedding e.2.vector))
  let ranked := (sortDesc hits).take top_k
  ranked.enum.map (fun p =>
    { document :=
        { id := p.2.1
          content := p.2.2.1.content
          embedding := none
          metadata := p.2.2.1.payload }
      score := p.2.2.2
      rank := p.1 })

end QdrantVectorStore

/-! ## Concrete fixtures for witnesses and counterexamples -/

/-- A populated user-statistics record. -/
def sampleStats : UserStats :=
  { username := "alice"
    level := 2
    xp_points := 120
    total_sessions := 10
    completed_sessions := 8
    completion_rate := 80
    total_focus_minutes := 300
    current_streak := 3
    longest_streak := 5
    last7_sessions_count := 4
    last7_completed_count := 3
    last7_focus_minutes := 90
    last7_avg_blink_rate := none }

/-- A knowledge-base document with low query similarity. -/
def lowDoc : Document :=
  { id := "doc-low"
    content := "General productivity background."
    embedding := none
    metadata := [("source", "misc.md"), ("section_title", "Misc"),
                 ("category", "general")] }

/-- A knowledge-base document with high query similarity. -/
def highDoc : Document :=
  { id := "doc-high"
    content := "Turn off all notifications to avoid phone distractions."
    embedding := none
    metadata := [("source", "focus_productivity.md"),
                 ("section_title", "Distraction Management"),
                 ("category", "focus_productivity")] }

/-- Search result scoring 0.2 (below the conversational cutoff). -/
def lowResult : SearchResult :=
  { document := lowDoc, score := mkRat 1 5, rank := 0 }

/-- Search result scoring 0.8 (above the conversational cutoff). -/
def highResult : SearchResult :=
  { document := highDoc, score := mkRat 4 5, rank := 0 }

/-- A sample exception. -/
def sampleErr : RagError := { msg := "boom", isRuntimeError := false }

/-- Environment in which every collaborator succeeds; retrieval yields
the low-similarity result for the two conversational-looking test
queries and the high-similarity result otherwise. -/
def envMulti : RagEnv :=
  { generatorModel := "mistral"
    generate := fun _ => .ok "generated answer"
    fetchUserStatsDb := fun _ => .ok (some sampleStats)
    collectionInfo := .ok 5
    retrieveResults := fun q _ _ =>
      if q == "Hey!" || q == "show me my stats" then .ok [lowResult]
      else .ok [highResult] }

/-- `envMulti` over an empty knowledge base. -/
def envEmptyKb : RagEnv := { envMulti with collectionInfo := .ok 0 }

/-- `envMulti` with a failing retriever. -/
def envRetrieveErr : RagEnv :=
  { envMulti with retrieveResults := fun _ _ _ => .error sampleErr }

/-- `envMulti` with a failing generator. -/
def envGenErr : RagEnv :=
  { envMulti with generate := fun _ => .error sampleErr }

/-- `envMulti` with a failing user-stats database access. -/
def envFetchErr : RagEnv :=
  { envMulti with fetchUserStatsDb := fun _ => .error sampleErr }

/-- `envMulti` with a failing `get_collection_info`. -/
def envInfoErr : RagEnv :=
  { envMulti with collectionInfo := .error sampleErr }

/-- Raw store results with a duplicated document id, sorted by
descending score. -/
def dupRawResults : List SearchResult :=
  [ { document := { id := "a", content := "first copy", embedding := none,
                    metadata := [] }, score := mkRat 9 10, rank := 0 },
    { document := { id := "a", content := "second copy", embedding := none,
                    metadata := [] }, score := mkRat 3 5, rank := 1 },
    { document := { id := "b", content := "weak match", embedding := none,
                    metadata := [] }, score := mkRat 1 5, rank := 2 } ]

/-- Retriever environment returning `dupRawResults` for every search. -/
def envRetr : Retriever.Env :=
  { embed := fun _ => [1], search := fun _ _ _ => dupRawResults }

/-- A conversation history of eight prior turns. -/
def hist8 : List ConversationTurn :=
  [ { role := "user", content := "hmsg1" },
    { role := "assistant", content := "hmsg2" },
    { role := "user", content := "hmsg3" },
    { role := "assistant", content := "hmsg4" },
    { role := "user", content := "hmsg5" },
    { role := "assistant", content := "hmsg6" },
    { role := "user", content := "hmsg7" },
    { role := "assistant", content := "hmsg8" } ]

/-- Old version of a stored document. -/
def storeDocOld : Document :=
  { id := "doc1", content := "old content", embedding := none, metadata := [] }

/-- Replacement for `storeDocOld` under the same id. -/
def storeDocNew : Document :=
  { id := "doc1", content := "new content", embedding := none, metadata := [] }

/-- Expected outcome of the C4 witness conversational call. -/
def c4OutA : RAGService.QueryOutcome :=
  { response :=
      { answer := "generated answer"
        sources := some []
        query := "Hey!"
        model_used := "mistral" }
    genCalls := [RAGService.conversationalGenRequest "Hey!"]
    branch := .conversational
    blockedOnInit := false
    statsFetched := false
    statsContext := none }

/-- Expected outcome of the C4 witness standard call. -/
def c4OutB : RAGService.QueryOutcome :=
  { response :=
      { answer := "generated answer"
        sources := some [mkSourceDocument highResult]
        query := "How can I avoid phone distractions?"
        model_used := "mistral" }
    genCalls :=
      [{ query := "How can I avoid phone distractions?"
         context_documents := [highDoc.content]
         system_prompt := none }]
    branch := .standardRag
    blockedOnInit := false
    statsFetched := false
    statsContext := none }

/-- Expected outcome of the C10 witness plain-query call. -/
def c10Out1 : RAGService.QueryOutcome :=
  { response :=
      { answer := "generated answer"
        sources := some []
        query := "show me my stats"
        model_used := "mistral" }
    genCalls := [RAGService.conversationalGenRequest "show me my stats"]
    branch := .conversational
    blockedOnInit := false
    statsFetched := true
    statsContext := some sampleStats }

/-- Expected outcome of the C10 and C5 witness stats call. -/
def c10Out2 : RAGService.ConvOutcome :=
  { response :=
      { answer := "generated answer"
        sources := some [mkSourceDocument lowResult]
        query := "show me my stats"
        model_used := "mistral" }
    genCalls :=
      [{ query := "show me my stats"
         context_documents :=
           [RAGService.statsPromptWithHistory "show me my stats" sampleStats
             ([lowResult].map (fun r => r.document.content)) hist8]
         system_prompt := some "" }]
    branch := .statsAnalysis
    blockedOnInit := false
    statsContext := some sampleStats }

/-- Expected outcome of the C5 witness conversational call. -/
def c5Out1 : RAGService.ConvOutcome :=
  { response :=
      { answer := "generated answer"
        sources := some []
        query := "Hey!"
        model_used := "mistral" }
    genCalls :=
      [{ query := "Hey!"
         context_documents :=
           [build_conversation_aware_prompt "Hey!" [] hist8
             PRODUCTIVITY_COACH_PROMPT]
         system_prompt := some "" }]
    branch := .conversational
    blockedOnInit := false
    statsContext := none }

/-- Expected outcome of the C5 witness standard call. -/
def c5Out2 : RAGService.ConvOutcome :=
  { response :=
      { answer := "generated answer"
        sources := some [mkSourceDocument highResult]
        query := "How can I avoid phone distractions?"
        model_used := "mistral" }
    genCalls :=
      [{ query := "How can I avoid phone distractions?"
         context_documents :=
           [build_conversation_aware_prompt
             "How can I avoid phone distractions?"
             ([highResult].map (fun r => r.document.content)) hist8
             PRODUCTIVITY_COACH_PROMPT]
         system_prompt := some "" }]
    branch := .standardRag
    blockedOnInit := false
    statsContext := none }

/-! ## Theorems -/

/-- Claim C6 (code bug): `initialize()` has no in-flight guard, so two
calls that interleave at the vector-store await point both run the
component construction (constructions = 2), while strictly sequential
repeated calls construct only once thanks to the already-initialized
short-circuit. -/
theorem initialize_race_duplicates_construction :
    (InitModel.runSchedule 2 [0, 1, 0, 1]).constructions = 2 ∧
    (InitModel.runSchedule 2 [0, 1, 0, 1]).initialized = true ∧
    (InitModel.runSchedule 2 [0, 0, 1]).constructions = 1 := by
  refine ⟨rfl, rfl, rfl⟩

/-- Claim C7 (counterexample): the `min_score_threshold` default in the
`Retriever.__init__` signature is not 0.3. -/
theorem retriever_default_threshold_not_three_tenths :
    Retriever.init_default_min_score_threshold ≠ 3/10 := by
  intro h
  simp only [Retriever.init_default_min_score_threshold] at h
  norm_num at h

/-- Claim C7 (amended): the constructor default of the Retriever
minimum-score threshold is 0.0; the value 0.3 is what the RAG service
passes when it configures its Retriever. -/
theorem retriever_threshold_values :
    Retriever.init_default_min_score_threshold = 0 ∧
    RAGService.retriever_min_score_threshold = 3/10 := by
  constructor
  · rfl
  · simp only [RAGService.retriever_min_score_threshold]
    norm_num

/-- Claim C1 (counterexample): a query entering `RAGService.query` while
the service is uninitialized awaits `initialize()` inline (it is
blocked on initialization) and the response `model_used` carries no
fallback marker. -/
theorem rag_query_blocks_when_uninitialized :
    (RAGService.query envMulti false "Hey!" 3 none true none false).toOption.map
      (fun out =>
        (out.blockedOnInit, strContains out.response.model_used "fallback",
          out.response.model_used)) =
    some (true, false, "mistral") := by
  rfl

/-- Claim C1 (amended): a query reaching the conversation route while
the RAG service is uninitialized is answered immediately through the
generator with history-only context and no retrieval, `model_used` is
the generator model tagged " (fallback - RAG initializing)", and the
request schedules one background initialization task instead of
awaiting initialization. -/
theorem route_fallback_on_uninitialized (env : RagEnv) (q : String)
    (history : List ConversationTurn) (top_k : Nat) (inc : Bool)
    (uid : Option String) (db : Bool) (a : String)
    (hgen : env.generate (ConversationRoute.fallbackGenRequest q history) = .ok a) :
    ConversationRoute.handle env false q history top_k inc uid db =
      .ok { response :=
              { query := q
                answer := a
                sources := none
                model_used := env.generatorModel ++ " (fallback - RAG initializing)" }
            genCalls := [ConversationRoute.fallbackGenRequest q history]
            initTasksScheduled := 1
            blockedOnInit := false } := by
  simp only [ConversationRoute.handle, Bool.not_false, if_pos, hgen]

/-- Witness for the C1 amended theorem at a concrete uninitialized
request. -/
theorem route_fallback_on_uninitialized_witness :
    envMulti.generate (ConversationRoute.fallbackGenRequest "Hey!" []) =
      .ok "generated answer" ∧
    ConversationRoute.handle envMulti false "Hey!" [] 3 true none false =
      .ok { response :=
              { query := "Hey!"
                answer := "generated answer"
                sources := none
                model_used := envMulti.generatorModel ++ " (fallback - RAG initializing)" }
            genCalls := [ConversationRoute.fallbackGenRequest "Hey!" []]
            initTasksScheduled := 1
            blockedOnInit := false } :=
  ⟨rfl, route_fallback_on_uninitialized envMulti "Hey!" [] 3 true none false
    "generated answer" rfl⟩

/-- Claim C2 (counterexample): with an empty knowledge base, a detected
personal-statistics query carrying a user id and database handle is
still short-circuited by the empty-knowledge-base check: it gets the
fixed ingestion message with `model_used = "system_message"` and no
generator call, although the stats detection ran and the stats fetch
succeeded. -/
theorem empty_kb_shortcircuits_stats_query :
    (RAGService.query envEmptyKb true "show me my stats" 3 none true
        (some "u1") true).toOption.map
      (fun out =>
        (out.response.answer, out.response.model_used, out.genCalls,
          out.statsFetched, out.statsContext)) =
    some (RAGService.empty_kb_message, "system_message", [], true,
      some sampleStats) := by
  rfl

/-- Claim C2 (amended): whenever `get_collection_info` reports zero
points, every query — stats or not — is answered with the fixed
ingestion-instructions message, `model_used = "system_message"`,
empty sources when requested, and no generator call; the stats
detection and stats fetch still run before the short-circuit, but
their result is unused. -/
theorem empty_kb_shortcircuit (env : RagEnv) (q : String) (top_k : Nat)
    (cf : Option String) (inc : Bool) (uid : Option String) (db : Bool)
    (hinfo : env.collectionInfo = .ok 0) :
    RAGService.query env true q top_k cf inc uid db =
      .ok { response :=
              { answer := RAGService.empty_kb_message
                sources := if inc then some [] else none
                query := q
                model_used := "system_message" }
            genCalls := []
            branch := .emptyKb
            blockedOnInit := false
            statsFetched := RAGService.is_stats_query q && uid.isSome && db
            statsContext :=
              match uid with
              | some u =>
                if RAGService.is_stats_query q && db then
                  RAGService.fetch_user_stats env u
                else none
              | none => none } := by
  simp only [RAGService.query, hinfo, Bool.not_true, reduceIte]

/-- Witness for the C2 amended theorem: a stats query with user id and
database handle against an empty knowledge base. -/
theorem empty_kb_shortcircuit_witness :
    envEmptyKb.collectionInfo = .ok 0 ∧
    RAGService.query envEmptyKb true "show me my stats" 3 none true
        (some "u1") true =
      .ok { response :=
              { answer := RAGService.empty_kb_message
                sources := if true then some [] else none
                query := "show me my stats"
                model_used := "system_message" }
            genCalls := []
            branch := .emptyKb
            blockedOnInit := false
            statsFetched :=
              RAGService.is_stats_query "show me my stats" && (some "u1").isSome && true
            statsContext :=
              match some "u1" with
              | some u =>
                if RAGService.is_stats_query "show me my stats" && true then
                  RAGService.fetch_user_stats envEmptyKb u
                else none
              | none => none } :=
  ⟨rfl, empty_kb_shortcircuit envEmptyKb "show me my stats" 3 none true
    (some "u1") true rfl⟩

/-- A result surviving the dedup loop comes from the input list. -/
theorem Retriever.mem_of_mem_dedupeById :
    ∀ {l : List SearchResult} {seen : List String} {r : SearchResult},
      r ∈ Retriever.dedupeById l seen → r ∈ l := by
  intro l
  induction l with
  | nil => intro seen r h; simp [Retriever.dedupeById] at h
  | cons a t ih =>
    intro seen r h
    simp only [Retriever.dedupeById] at h
    by_cases hc : List.contains seen a.document.id = true
    · rw [if_pos hc] at h
      exact List.mem_cons_of_mem _ (ih h)
    · rw [if_neg hc] at h
      rcases List.mem_cons.mp h with rfl | h
      · exact List.mem_cons_self _ _
      · exact List.mem_cons_of_mem _ (ih h)

/-- A result surviving the dedup loop has an id outside `seen`. -/
theorem Retriever.dedupeById_not_seen :
    ∀ {l : List SearchResult} {seen : List String} {r : SearchResult},
      r ∈ Retriever.dedupeById l seen → seen.contains r.document.id = false := by
  intro l
  induction l with
  | nil => intro seen r h; simp [Retriever.dedupeById] at h
  | cons a t ih =>
    intro seen r h
    simp only [Retriever.dedupeById] at h
    by_cases hc : List.contains seen a.document.id = true
    · rw [if_pos hc] at h
      exact ih h
    · rw [if_neg hc] at h
      rcases List.mem_cons.mp h with rfl | h
      · exact Bool.not_eq_true _ ▸ Bool.eq_false_iff.mpr hc
      · have h2 := ih h
        simp only [List.contains_cons, Bool.or_eq_false_iff] at h2
        exact h2.2

/-- The ids surviving the dedup loop are pairwise distinct. -/
theorem Retriever.dedupeById_nodup :
    ∀ (l : List SearchResult) (seen : List String),
      ((Retriever.dedupeById l seen).map (fun r => r.document.id)).Nodup := by
  intro l
  induction l with
  | nil => intro seen; simp [Retriever.dedupeById]
  | cons a t ih =>
    intro seen
    simp only [Retriever.dedupeById]
    by_cases hc : List.contains seen a.document.id = true
    · rw [if_pos hc]; exact ih seen
    · rw [if_neg hc]
      simp only [List.map_cons, List.nodup_cons]
      refine ⟨?_, ih _⟩
      intro hmem
      rcases List.mem_map.mp hmem with ⟨r, hr, hid⟩
      have h2 := Retriever.dedupeById_not_seen hr
      simp only [List.contains_cons, Bool.or_eq_false_iff] at h2
      have := h2.1
      rw [hid] at this
      simp at this

/-- A result surviving the dedup loop whose id is outside `seen` is the
first occurrence of its id in the input list. -/
theorem Retriever.dedupeById_first :
    ∀ {l : List SearchResult} {seen : List String} {r : SearchResult},
      r ∈ Retriever.dedupeById l seen →
      l.find? (fun x => x.document.id == r.document.id) = some r := by
  intro l
  induction l with
  | nil => intro seen r h; simp [Retriever.dedupeById] at h
  | cons a t ih =>
    intro seen r h
    simp only [Retriever.dedupeById] at h
    by_cases hc : List.contains seen a.document.id = true
    · rw [if_pos hc] at h
      have hns := Retriever.dedupeById_not_seen h
      have hne : (a.document.id == r.document.id) = false := by
        by_contra hcon
        have : a.document.id = r.document.id := by
          have := Bool.not_eq_false _ |>.mp hcon
          exact eq_of_beq this
        rw [this] at hc
        rw [hns] at hc
        exact Bool.false_ne_true hc
      rw [List.find?_cons_of_neg _ (by simp [hne])]
      exact ih h
    · rw [if_neg hc] at h
      rcases List.mem_cons.mp h with rfl | h
      · exact List.find?_cons_of_pos _ (beq_self_eq_true _)
      · have hns := Retriever.dedupeById_not_seen h
        simp only [List.contains_cons, Bool.or_eq_false_iff] at hns
        have hne : (a.document.id == r.document.id) = false := by
          have := hns.1
          cases hbe : a.document.id == r.document.id
          · rfl
          · exfalso
            have heq : a.document.id = r.document.id := eq_of_beq hbe
            rw [heq] at this
            simp at this
        rw [List.find?_cons_of_neg _ (by simp [hne])]
        exact ih h

/-- A first occurrence inside the score-filtered list is also the first
occurrence in the raw list, provided the raw list is sorted by
descending score and the result clears the threshold. -/
theorem find?_filter_to_raw (θ : ℚ) :
    ∀ (results : List SearchResult) (r : SearchResult),
      List.Pairwise (fun a b => b.score ≤ a.score) results →
      θ ≤ r.score →
      (results.filter (fun x => decide (θ ≤ x.score))).find?
          (fun x => x.document.id == r.document.id) = some r →
      results.find? (fun x => x.document.id == r.document.id) = some r := by
  intro results
  induction results with
  | nil => intro r _ _ hfind; simp at hfind
  | cons a t ih =>
    intro r hsort hscore hfind
    have hpair := List.pairwise_cons.mp hsort
    by_cases ha : θ ≤ a.score
    · rw [List.filter_cons_of_pos (by simpa using ha)] at hfind
      cases hid : (a.document.id == r.document.id) with
      | true =>
        simp only [List.find?, hid] at hfind ⊢
        exact hfind
      | false =>
        simp only [List.find?, hid] at hfind ⊢
        exact ih r hpair.2 hscore hfind
    · rw [List.filter_cons_of_neg (by simpa using ha)] at hfind
      cases hid : (a.document.id == r.document.id) with
      | true =>
        exfalso
        have hr_mem := List.mem_of_find?_eq_some hfind
        have hr_t : r ∈ t := List.mem_of_mem_filter hr_mem
        exact ha (le_trans hscore (hpair.1 r hr_t))
      | false =>
        simp only [List.find?, hid]
        exact ih r hpair.2 hscore hfind

/-- Claim C3: every result returned by `Retriever.retrieve` scores at
least the configured `min_score_threshold`, the returned document ids
are pairwise distinct, and — given that the raw store results arrive
sorted by descending score, as the vector-store contract guarantees —
each returned result is exactly the first (highest-ranked) occurrence
of its document id among the raw store results. -/
theorem retriever_retrieve_invariants (env : Retriever.Env) (pre : Bool)
    (θ : ℚ) (q : String) (top_k : Nat)
    (ctx fm : Option (List (String × String)))
    (hsorted : List.Pairwise (fun a b => b.score ≤ a.score)
      (Retriever.rawResults env pre q top_k ctx fm)) :
    (∀ r ∈ Retriever.retrieve env pre θ q top_k ctx fm, θ ≤ r.score) ∧
    ((Retriever.retrieve env pre θ q top_k ctx fm).map
      (fun r => r.document.id)).Nodup ∧
    (∀ r ∈ Retriever.retrieve env pre θ q top_k ctx fm,
      (Retriever.rawResults env pre q top_k ctx fm).find?
        (fun x => x.document.id == r.document.id) = some r) := by
  have hre : Retriever.retrieve env pre θ q top_k ctx fm =
      Retriever.post_process θ (Retriever.rawResults env pre q top_k ctx fm) := rfl
  rw [hre]
  unfold Retriever.post_process
  refine ⟨?_, ?_, ?_⟩
  · intro r hr
    have h1 := Retriever.mem_of_mem_dedupeById hr
    simpa using (List.mem_filter.mp h1).2
  · exact Retriever.dedupeById_nodup _ _
  · intro r hr
    have hsc : θ ≤ r.score := by
      have h1 := Retriever.mem_of_mem_dedupeById hr
      simpa using (List.mem_filter.mp h1).2
    exact find?_filter_to_raw θ _ r hsorted hsc (Retriever.dedupeById_first hr)

/-- Witness for C3: a raw result list with a duplicated id and a
below-threshold tail entry. -/
theorem retriever_retrieve_invariants_witness :
    List.Pairwise (fun a b => b.score ≤ a.score)
      (Retriever.rawResults envRetr true "q" 5 none none) ∧
    ((∀ r ∈ Retriever.retrieve envRetr true (mkRat 3 10) "q" 5 none none,
        mkRat 3 10 ≤ r.score) ∧
      ((Retriever.retrieve envRetr true (mkRat 3 10) "q" 5 none none).map
        (fun r => r.document.id)).Nodup ∧
      (∀ r ∈ Retriever.retrieve envRetr true (mkRat 3 10) "q" 5 none none,
        (Retriever.rawResults envRetr true "q" 5 none none).find?
          (fun x => x.document.id == r.document.id) = some r)) :=
  ⟨by decide,
    retriever_retrieve_invariants envRetr true (mkRat 3 10) "q" 5 none none
      (by decide)⟩

/-- The conversational test holds exactly on an empty result list or a
first score below one half. -/
theorem isConversational_iff (results : List SearchResult) :
    RAGService.isConversational results = true ↔
      results = [] ∨ ∃ r rs, results = r :: rs ∧ r.score < mkRat 1 2 := by
  cases results with
  | nil => simp [RAGService.isConversational]
  | cons r rs =>
    simp only [RAGService.isConversational, decide_eq_true_eq]
    constructor
    · intro h
      exact Or.inr ⟨r, rs, rfl, h⟩
    · intro h
      rcases h with h | ⟨r2, rs2, heq, hlt⟩
      · exact absurd h (by simp)
      · injection heq with h1 h2
        rw [h1]
        exact hlt

theorem query_reduce_conversational (env : RagEnv) (q : String) (top_k : Nat)
    (cf : Option String) (inc : Bool) (uid : Option String) (db : Bool)
    (n : Nat) (results : List SearchResult) (a : String)
    (hinfo : env.collectionInfo = .ok n) (hn : n ≠ 0)
    (hret : env.retrieveResults q top_k
      (cf.map (fun c => [("category", c)])) = .ok results)
    (hconv : RAGService.isConversational results = true)
    (hgen : env.generate (RAGService.conversationalGenRequest q) = .ok a) :
    RAGService.query env true q top_k cf inc uid db = .ok
      { response :=
          { answer := a
            sources := if inc then some [] else none
            query := q
            model_used := env.generatorModel }
        genCalls := [RAGService.conversationalGenRequest q]
        branch := .conversational
        blockedOnInit := false
        statsFetched := RAGService.is_stats_query q && uid.isSome && db
        statsContext :=
          match uid with
          | some u =>
            if RAGService.is_stats_query q && db then
              RAGService.fetch_user_stats env u
            else none
          | none => none } := by
  simp only [RAGService.query, hinfo, hret, hconv, Bool.not_true]
  rw [if_neg (by simp [hn])]
  rw [hgen]
  simp only [if_true]

theorem query_reduce_standard (env : RagEnv) (q : String) (top_k : Nat)
    (cf : Option String) (inc : Bool) (uid : Option String) (db : Bool)
    (n : Nat) (results : List SearchResult) (a : String)
    (hinfo : env.collectionInfo = .ok n) (hn : n ≠ 0)
    (hret : env.retrieveResults q top_k
      (cf.map (fun c => [("category", c)])) = .ok results)
    (hconv : RAGService.isConversational results = false)
    (hq : RAGService.is_stats_query q = false)
    (hgen : env.generate
      { query := q
        context_documents := results.map (fun r => r.document.content)
        system_prompt := none } = .ok a) :
    RAGService.query env true q top_k cf inc uid db = .ok
      { response :=
          { answer := a
            sources := if inc then some (results.map mkSourceDocument) else none
            query := q
            model_used := env.generatorModel }
        genCalls :=
          [{ query := q
             context_documents := results.map (fun r => r.document.content)
             system_prompt := none }]
        branch := .standardRag
        blockedOnInit := false
        statsFetched := false
        statsContext :=
          match uid with
          | some u =>
            if RAGService.is_stats_query q && db then
              RAGService.fetch_user_stats env u
            else none
          | none => none } := by
  simp only [RAGService.query, hinfo, hret, hconv, hq, Bool.not_true,
    Bool.false_and, Bool.false_eq_true, if_false]
  rw [if_neg (by simp [hn])]
  rw [hgen]
  simp

theorem query_reduce_stats (env : RagEnv) (q : String) (top_k : Nat)
    (cf : Option String) (inc : Bool) (u : String)
    (n : Nat) (results : List SearchResult) (stats : UserStats) (a : String)
    (hinfo : env.collectionInfo = .ok n) (hn : n ≠ 0)
    (hret : env.retrieveResults q top_k
      (cf.map (fun c => [("category", c)])) = .ok results)
    (hconv : RAGService.isConversational results = false)
    (hq : RAGService.is_stats_query q = true)
    (hfetch : RAGService.fetch_user_stats env u = some stats)
    (hgen : env.generate
      { query := q
        context_documents :=
          [build_stats_analysis_prompt q stats
            ((results.map (fun r => r.document.content)).take 2)]
        system_prompt := some "" } = .ok a) :
    RAGService.query env true q top_k cf inc (some u) true = .ok
      { response :=
          { answer := a
            sources := if inc then some (results.map mkSourceDocument) else none
            query := q
            model_used := env.generatorModel }
        genCalls :=
          [{ query := q
             context_documents :=
               [build_stats_analysis_prompt q stats
                 ((results.map (fun r => r.document.content)).take 2)]
             system_prompt := some "" }]
        branch := .statsAnalysis
        blockedOnInit := false
        statsFetched := true
        statsContext := some stats } := by
  simp only [RAGService.query, hinfo, hret, hconv, hq, hfetch, Bool.not_true,
    Bool.true_and, Bool.and_true, Bool.false_eq_true, if_false, if_true]
  rw [if_neg (by simp [hn])]
  simp only [Option.map_some']
  rw [hgen]
  rfl

theorem qwc_reduce_conversational (env : RagEnv) (q : String)
    (hist : List ConversationTurn) (top_k : Nat) (cf : Option String)
    (inc : Bool) (uid : Option String) (db : Bool)
    (results : List SearchResult) (a : String)
    (hret : env.retrieveResults q top_k
      (cf.map (fun c => [("category", c)])) = .ok results)
    (hconv : RAGService.isConversational results = true)
    (hq : RAGService.is_stats_query q = false)
    (hgen : env.generate
      { query := q
        context_documents :=
          [build_conversation_aware_prompt q [] hist PRODUCTIVITY_COACH_PROMPT]
        system_prompt := some "" } = .ok a) :
    RAGService.query_with_conversation env true q hist top_k cf inc uid db = .ok
      { response :=
          { answer := a
            sources := some []
            query := q
            model_used := env.generatorModel }
        genCalls :=
          [{ query := q
             context_documents :=
               [build_conversation_aware_prompt q [] hist PRODUCTIVITY_COACH_PROMPT]
             system_prompt := some "" }]
        branch := .conversational
        blockedOnInit := false
        statsContext :=
          match uid with
          | some u =>
            if RAGService.is_stats_query q && db then
              RAGService.fetch_user_stats env u
            else none
          | none => none } := by
  simp only [RAGService.query_with_conversation, hret, hconv, hq,
    Bool.not_false, Bool.true_and, Bool.and_true, if_true]
  rw [hgen]
  rfl

theorem qwc_reduce_stats (env : RagEnv) (q : String)
    (hist : List ConversationTurn) (top_k : Nat) (cf : Option String)
    (inc : Bool) (u : String)
    (results : List SearchResult) (stats : UserStats) (a : String)
    (hret : env.retrieveResults q top_k
      (cf.map (fun c => [("category", c)])) = .ok results)
    (hq : RAGService.is_stats_query q = true)
    (hfetch : RAGService.fetch_user_stats env u = some stats)
    (hgen : env.generate
      { query := q
        context_documents :=
          [RAGService.statsPromptWithHistory q stats
            (results.map (fun r => r.document.content)) hist]
        system_prompt := some "" } = .ok a) :
    RAGService.query_with_conversation env true q hist top_k cf inc
        (some u) true = .ok
      { response :=
          { answer := a
            sources :=
              if inc && !results.isEmpty then
                some (results.map mkSourceDocument)
              else none
            query := q
            model_used := env.generatorModel }
        genCalls :=
          [{ query := q
             context_documents :=
               [RAGService.statsPromptWithHistory q stats
                 (results.map (fun r => r.document.content)) hist]
             system_prompt := some "" }]
        branch := .statsAnalysis
        blockedOnInit := false
        statsContext := some stats } := by
  simp only [RAGService.query_with_conversation, hret, hq, hfetch,
    Bool.not_true, Bool.and_false, Bool.true_and, Bool.and_true,
    Bool.false_eq_true, if_false, Option.map_some']
  simp only [if_true, Option.map_some']
  rw [hgen]
  rfl

theorem qwc_reduce_standard (env : RagEnv) (q : String)
    (hist : List ConversationTurn) (top_k : Nat) (cf : Option String)
    (inc : Bool) (uid : Option String) (db : Bool)
    (results : List SearchResult) (a : String)
    (hret : env.retrieveResults q top_k
      (cf.map (fun c => [("category", c)])) = .ok results)
    (hconv : RAGService.isConversational results = false)
    (hq : RAGService.is_stats_query q = false)
    (hgen : env.generate
      { query := q
        context_documents :=
          [build_conversation_aware_prompt q
            (results.map (fun r => r.document.content)) hist
            PRODUCTIVITY_COACH_PROMPT]
        system_prompt := some "" } = .ok a) :
    RAGService.query_with_conversation env true q hist top_k cf inc uid db = .ok
      { response :=
          { answer := a
            sources :=
              if inc && !results.isEmpty then
                some (results.map mkSourceDocument)
              else none
            query := q
            model_used := env.generatorModel }
        genCalls :=
          [{ query := q
             context_documents :=
               [build_conversation_aware_prompt q
                 (results.map (fun r => r.document.content)) hist
                 PRODUCTIVITY_COACH_PROMPT]
             system_prompt := some "" }]
        branch := .standardRag
        blockedOnInit := false
        statsContext :=
          match uid with
          | some u =>
            if RAGService.is_stats_query q && db then
              RAGService.fetch_user_stats env u
            else none
          | none => none } := by
  simp only [RAGService.query_with_conversation, hret, hconv, hq,
    Bool.and_false, Bool.false_and, Bool.false_eq_true, if_false]
  rw [hgen]
  rfl

theorem query_reduce_retrieve_error (env : RagEnv) (q : String) (top_k : Nat)
    (cf : Option String) (inc : Bool) (uid : Option String) (db : Bool)
    (n : Nat) (e : RagError)
    (hinfo : env.collectionInfo = .ok n) (hn : n ≠ 0)
    (hret : env.retrieveResults q top_k
      (cf.map (fun c => [("category", c)])) = .error e) :
    RAGService.query env true q top_k cf inc uid db = .error e := by
  simp only [RAGService.query, hinfo, hret]
  rw [if_neg (by simp [hn])]

theorem query_reduce_conversational_error (env : RagEnv) (q : String)
    (top_k : Nat) (cf : Option String) (inc : Bool) (uid : Option String)
    (db : Bool) (n : Nat) (results : List SearchResult) (e : RagError)
    (hinfo : env.collectionInfo = .ok n) (hn : n ≠ 0)
    (hret : env.retrieveResults q top_k
      (cf.map (fun c => [("category", c)])) = .ok results)
    (hconv : RAGService.isConversational results = true)
    (hgen : env.generate (RAGService.conversationalGenRequest q) = .error e) :
    RAGService.query env true q top_k cf inc uid db = .error e := by
  simp only [RAGService.query, hinfo, hret, hconv, if_true]
  rw [if_neg (by simp [hn])]
  rw [hgen]

theorem query_nonconv_branch (env : RagEnv) (q : String) (top_k : Nat)
    (cf : Option String) (inc : Bool) (uid : Option String) (db : Bool)
    (n : Nat) (results : List SearchResult) (out : RAGService.QueryOutcome)
    (hinfo : env.collectionInfo = .ok n) (hn : n ≠ 0)
    (hret : env.retrieveResults q top_k
      (cf.map (fun c => [("category", c)])) = .ok results)
    (hconv : RAGService.isConversational results = false)
    (hout : RAGService.query env true q top_k cf inc uid db = .ok out) :
    out.branch ≠ RAGService.QueryBranch.conversational := by
  simp only [RAGService.query, hinfo, hret, hconv, Bool.false_eq_true,
    if_false] at hout
  rw [if_neg (by simp [hn])] at hout
  split at hout
  · simp at hout
  · simp only [Except.ok.injEq] at hout
    subst hout
    intro hcontra
    simp only at hcontra
    repeat' split at hcontra
    all_goals simp_all

/-- Claim C4: `RAGService.query` classifies a turn conversational
exactly when retrieval returned no results or the best (first) result
scores below 0.5; on the conversational branch the single generator
call is `conversationalGenRequest`, a function of the query alone (so
no retrieved context documents reach the generator), and the response
sources are empty (or omitted when sources were not requested). -/
theorem rag_query_conversational_classification (env : RagEnv)
    (qA qB : String) (top_k : Nat) (cf : Option String) (inc : Bool)
    (uid : Option String) (db : Bool) (n : Nat)
    (resultsA resultsB : List SearchResult)
    (outA outB : RAGService.QueryOutcome)
    (hinfo : env.collectionInfo = .ok n) (hn : n ≠ 0)
    (hretA : env.retrieveResults qA top_k
      (cf.map (fun c => [("category", c)])) = .ok resultsA)
    (hconvA : resultsA = [] ∨ ∃ r rs, resultsA = r :: rs ∧ r.score < mkRat 1 2)
    (houtA : RAGService.query env true qA top_k cf inc uid db = .ok outA)
    (hretB : env.retrieveResults qB top_k
      (cf.map (fun c => [("category", c)])) = .ok resultsB)
    (hconvB : ¬(resultsB = [] ∨ ∃ r rs, resultsB = r :: rs ∧ r.score < mkRat 1 2))
    (houtB : RAGService.query env true qB top_k cf inc uid db = .ok outB) :
    outA.branch = .conversational ∧
    outA.genCalls = [RAGService.conversationalGenRequest qA] ∧
    outA.response.sources = (if inc then some [] else none) ∧
    outB.branch ≠ .conversational := by
  have hcA : RAGService.isConversational resultsA = true :=
    (isConversational_iff resultsA).mpr hconvA
  have hcB : RAGService.isConversational resultsB = false := by
    cases h : RAGService.isConversational resultsB
    · rfl
    · exact absurd ((isConversational_iff resultsB).mp h) hconvB
  cases hgA : env.generate (RAGService.conversationalGenRequest qA) with
  | error e =>
    have heq := query_reduce_conversational_error env qA top_k cf inc uid db
      n resultsA e hinfo hn hretA hcA hgA
    rw [heq] at houtA
    exact absurd houtA (by simp)
  | ok a =>
    have heq := query_reduce_conversational env qA top_k cf inc uid db
      n resultsA a hinfo hn hretA hcA hgA
    rw [heq] at houtA
    simp only [Except.ok.injEq] at houtA
    subst houtA
    exact ⟨rfl, rfl, rfl,
      query_nonconv_branch env qB top_k cf inc uid db n resultsB outB
        hinfo hn hretB hcB houtB⟩

/-- Witness for C4: a low-scoring and a high-scoring retrieval against
the same environment. -/
theorem rag_query_conversational_classification_witness :
    ([lowResult] = [] ∨ ∃ r rs, [lowResult] = r :: rs ∧ r.score < mkRat 1 2) ∧
    ¬([highResult] = [] ∨ ∃ r rs, [highResult] = r :: rs ∧ r.score < mkRat 1 2) ∧
    (c4OutA.branch = .conversational ∧
      c4OutA.genCalls = [RAGService.conversationalGenRequest "Hey!"] ∧
      c4OutA.response.sources = (if true then some [] else none) ∧
      c4OutB.branch ≠ .conversational) :=
  have hB : ¬([highResult] = [] ∨
      ∃ r rs, [highResult] = r :: rs ∧ r.score < mkRat 1 2) := by
    rintro (h | ⟨r, rs, heq, hlt⟩)
    · exact absurd h (by decide)
    · injection heq with h1 h2
      subst h1
      revert hlt
      decide
  ⟨Or.inr ⟨lowResult, [], rfl, by decide⟩, hB,
    rag_query_conversational_classification envMulti "Hey!"
      "How can I avoid phone distractions?" 3 none true none false 5
      [lowResult] [highResult] c4OutA c4OutB rfl (by decide) rfl
      (Or.inr ⟨lowResult, [], rfl, by decide⟩) rfl rfl hB rfl⟩

theorem qwc_reduce_stats_error (env : RagEnv) (q : String)
    (hist : List ConversationTurn) (top_k : Nat) (cf : Option String)
    (inc : Bool) (u : String)
    (results : List SearchResult) (stats : UserStats) (e : RagError)
    (hret : env.retrieveResults q top_k
      (cf.map (fun c => [("category", c)])) = .ok results)
    (hq : RAGService.is_stats_query q = true)
    (hfetch : RAGService.fetch_user_stats env u = some stats)
    (hgen : env.generate
      { query := q
        context_documents :=
          [RAGService.statsPromptWithHistory q stats
            (results.map (fun r => r.document.content)) hist]
        system_prompt := some "" } = .error e) :
    RAGService.query_with_conversation env true q hist top_k cf inc
        (some u) true = .error e := by
  simp only [RAGService.query_with_conversation, hret, hq, hfetch,
    Bool.not_true, Bool.and_false, Bool.true_and, Bool.and_true,
    Bool.false_eq_true, if_false, Option.map_some']
  simp only [if_true, Option.map_some']
  rw [hgen]

/-- Claim C10: on an input that is both a detected stats query (user id
and database handle supplied, stats fetch succeeding) and classified
conversational, `RAGService.query` takes the conversational branch and
ignores the fetched stats, while `RAGService.query_with_conversation`
excludes stats queries from its conversational branch and builds the
stats-analysis prompt instead. -/
theorem rag_entry_points_stats_divergence (env : RagEnv) (q : String)
    (hist : List ConversationTurn) (top_k : Nat) (cf : Option String)
    (inc : Bool) (u : String) (stats : UserStats) (n : Nat)
    (results : List SearchResult) (out1 : RAGService.QueryOutcome)
    (out2 : RAGService.ConvOutcome)
    (hq : RAGService.is_stats_query q = true)
    (hfetch : RAGService.fetch_user_stats env u = some stats)
    (hinfo : env.collectionInfo = .ok n) (hn : n ≠ 0)
    (hret : env.retrieveResults q top_k
      (cf.map (fun c => [("category", c)])) = .ok results)
    (hconv : results = [] ∨ ∃ r rs, results = r :: rs ∧ r.score < mkRat 1 2)
    (hout1 : RAGService.query env true q top_k cf inc (some u) true = .ok out1)
    (hout2 : RAGService.query_with_conversation env true q hist top_k cf inc
      (some u) true = .ok out2) :
    out1.branch = .conversational ∧
    out1.genCalls = [RAGService.conversationalGenRequest q] ∧
    out1.statsContext = some stats ∧
    out2.branch = .statsAnalysis ∧
    out2.genCalls =
      [{ query := q
         context_documents :=
           [RAGService.statsPromptWithHistory q stats
             (results.map (fun r => r.document.content)) hist]
         system_prompt := some "" }] := by
  have hcA : RAGService.isConversational results = true :=
    (isConversational_iff results).mpr hconv
  have h1 : out1.branch = .conversational ∧
      out1.genCalls = [RAGService.conversationalGenRequest q] ∧
      out1.statsContext = some stats := by
    cases hgA : env.generate (RAGService.conversationalGenRequest q) with
    | error e =>
      have heq := query_reduce_conversational_error env q top_k cf inc
        (some u) true n results e hinfo hn hret hcA hgA
      rw [heq] at hout1
      exact absurd hout1 (by simp)
    | ok a =>
      have heq := query_reduce_conversational env q top_k cf inc (some u)
        true n results a hinfo hn hret hcA hgA
      rw [heq] at hout1
      simp only [Except.ok.injEq] at hout1
      subst hout1
      refine ⟨rfl, rfl, ?_⟩
      simp only [hq, Bool.true_and, if_true, hfetch]
  refine ⟨h1.1, h1.2.1, h1.2.2, ?_⟩
  cases hgB : env.generate
      { query := q
        context_documents :=
          [RAGService.statsPromptWithHistory q stats
            (results.map (fun r => r.document.content)) hist]
        system_prompt := some "" } with
  | error e =>
    have heq := qwc_reduce_stats_error env q hist top_k cf inc u results
      stats e hret hq hfetch hgB
    rw [heq] at hout2
    exact absurd hout2 (by simp)
  | ok a =>
    have heq := qwc_reduce_stats env q hist top_k cf inc u results stats a
      hret hq hfetch hgB
    rw [heq] at hout2
    simp only [Except.ok.injEq] at hout2
    subst hout2
    exact ⟨rfl, rfl⟩

/-- Witness for C10: the stats query "show me my stats" with a
low-scoring retrieval, run through both entry points. -/
theorem rag_entry_points_stats_divergence_witness :
    RAGService.is_stats_query "show me my stats" = true ∧
    ([lowResult] = [] ∨ ∃ r rs, [lowResult] = r :: rs ∧ r.score < mkRat 1 2) ∧
    (c10Out1.branch = .conversational ∧
      c10Out1.genCalls =
        [RAGService.conversationalGenRequest "show me my stats"] ∧
      c10Out1.statsContext = some sampleStats ∧
      c10Out2.branch = .statsAnalysis ∧
      c10Out2.genCalls =
        [{ query := "show me my stats"
           context_documents :=
             [RAGService.statsPromptWithHistory "show me my stats" sampleStats
               ([lowResult].map (fun r => r.document.content)) hist8]
           system_prompt := some "" }]) :=
  ⟨by decide, Or.inr ⟨lowResult, [], rfl, by decide⟩,
    rag_entry_points_stats_divergence envMulti "show me my stats" hist8 3
      none true "u1" sampleStats 5 [lowResult] c10Out1 c10Out2 (by decide)
      rfl rfl (by decide) rfl (Or.inr ⟨lowResult, [], rfl, by decide⟩)
      rfl rfl⟩

/-- Claim C8 (counterexample): an exception raised inside the
user-stats fetch is not re-raised — the query still succeeds, with the
stats context silently degraded to none. -/
theorem stats_fetch_error_swallowed :
    (RAGService.query envFetchErr true "show me my stats" 3 none true
        (some "u1") true).toOption.map
      (fun out => (out.statsFetched, out.statsContext, out.branch)) =
    some (true, none, RAGService.QueryBranch.conversational) := by
  rfl

theorem query_reduce_conversational_info_error (env : RagEnv) (q : String)
    (top_k : Nat) (cf : Option String) (inc : Bool) (uid : Option String)
    (db : Bool) (e0 : RagError) (results : List SearchResult) (a : String)
    (hinfo : env.collectionInfo = .error e0)
    (hret : env.retrieveResults q top_k
      (cf.map (fun c => [("category", c)])) = .ok results)
    (hconv : RAGService.isConversational results = true)
    (hgen : env.generate (RAGService.conversationalGenRequest q) = .ok a) :
    RAGService.query env true q top_k cf inc uid db = .ok
      { response :=
          { answer := a
            sources := if inc then some [] else none
            query := q
            model_used := env.generatorModel }
        genCalls := [RAGService.conversationalGenRequest q]
        branch := .conversational
        blockedOnInit := false
        statsFetched := RAGService.is_stats_query q && uid.isSome && db
        statsContext :=
          match uid with
          | some u =>
            if RAGService.is_stats_query q && db then
              RAGService.fetch_user_stats env u
            else none
          | none => none } := by
  simp only [RAGService.query, hinfo, hret, hconv, Bool.not_true]
  rw [if_neg (by simp)]
  rw [hgen]
  simp only [if_true]

/-- Claim C8 (amended): exceptions during retrieval and generation are
re-raised by `RAGService.query`, but an exception in the user-stats
fetch is caught and replaced by an empty stats context, and an
exception in the collection-info check is caught and the query
proceeds as if the knowledge base were non-empty. -/
theorem rag_query_error_semantics (env1 env2 env3 env4 : RagEnv)
    (q1 q2 q3 q4 : String) (top_k : Nat) (cf : Option String) (inc : Bool)
    (uid : Option String) (db : Bool) (u : String)
    (n1 n2 n3 : Nat) (e1 e2 e3 e4 : RagError)
    (results2 results3 results4 : List SearchResult) (a3 a4 : String)
    (hinfo1 : env1.collectionInfo = .ok n1) (hn1 : n1 ≠ 0)
    (hret1 : env1.retrieveResults q1 top_k
      (cf.map (fun c => [("category", c)])) = .error e1)
    (hinfo2 : env2.collectionInfo = .ok n2) (hn2 : n2 ≠ 0)
    (hret2 : env2.retrieveResults q2 top_k
      (cf.map (fun c => [("category", c)])) = .ok results2)
    (hconv2 : RAGService.isConversational results2 = true)
    (hgen2 : env2.generate (RAGService.conversationalGenRequest q2) = .error e2)
    (hq3 : RAGService.is_stats_query q3 = true)
    (hfetch3 : env3.fetchUserStatsDb u = .error e3)
    (hinfo3 : env3.collectionInfo = .ok n3) (hn3 : n3 ≠ 0)
    (hret3 : env3.retrieveResults q3 top_k
      (cf.map (fun c => [("category", c)])) = .ok results3)
    (hconv3 : RAGService.isConversational results3 = true)
    (hgen3 : env3.generate (RAGService.conversationalGenRequest q3) = .ok a3)
    (hinfo4 : env4.collectionInfo = .error e4)
    (hret4 : env4.retrieveResults q4 top_k
      (cf.map (fun c => [("category", c)])) = .ok results4)
    (hconv4 : RAGService.isConversational results4 = true)
    (hgen4 : env4.generate (RAGService.conversationalGenRequest q4) = .ok a4) :
    RAGService.query env1 true q1 top_k cf inc uid db = .error e1 ∧
    RAGService.query env2 true q2 top_k cf inc uid db = .error e2 ∧
    RAGService.query env3 true q3 top_k cf inc (some u) true = .ok
      { response :=
          { answer := a3
            sources := if inc then some [] else none
            query := q3
            model_used := env3.generatorModel }
        genCalls := [RAGService.conversationalGenRequest q3]
        branch := .conversational
        blockedOnInit := false
        statsFetched := true
        statsContext := none } ∧
    RAGService.query env4 true q4 top_k cf inc uid db = .ok
      { response :=
          { answer := a4
            sources := if inc then some [] else none
            query := q4
            model_used := env4.generatorModel }
        genCalls := [RAGService.conversationalGenRequest q4]
        branch := .conversational
        blockedOnInit := false
        statsFetched := RAGService.is_stats_query q4 && uid.isSome && db
        statsContext :=
          match uid with
          | some u2 =>
            if RAGService.is_stats_query q4 && db then
              RAGService.fetch_user_stats env4 u2
            else none
          | none => none } := by
  refine ⟨?_, ?_, ?_, ?_⟩
  · exact query_reduce_retrieve_error env1 q1 top_k cf inc uid db n1 e1
      hinfo1 hn1 hret1
  · exact query_reduce_conversational_error env2 q2 top_k cf inc uid db n2
      results2 e2 hinfo2 hn2 hret2 hconv2 hgen2
  · have heq := query_reduce_conversational env3 q3 top_k cf inc (some u)
      true n3 results3 a3 hinfo3 hn3 hret3 hconv3 hgen3
    rw [heq]
    simp only [hq3, Bool.true_and, if_true, RAGService.fetch_user_stats,
      hfetch3, Option.isSome_some, Bool.and_true]
  · exact query_reduce_conversational_info_error env4 q4 top_k cf inc uid
      db e4 results4 a4 hinfo4 hret4 hconv4 hgen4

/-- Witness for the C8 amended theorem over four concrete failing
environments. -/
theorem rag_query_error_semantics_witness :
    envRetrieveErr.retrieveResults "How can I avoid phone distractions?" 3
        none = .error sampleErr ∧
    envGenErr.generate (RAGService.conversationalGenRequest "Hey!") =
      .error sampleErr ∧
    envFetchErr.fetchUserStatsDb "u1" = .error sampleErr ∧
    envInfoErr.collectionInfo = .error sampleErr ∧
    (RAGService.query envRetrieveErr true "How can I avoid phone distractions?"
        3 none true none false = .error sampleErr ∧
      RAGService.query envGenErr true "Hey!" 3 none true none false =
        .error sampleErr ∧
      RAGService.query envFetchErr true "show me my stats" 3 none true
          (some "u1") true = .ok
        { response :=
            { answer := "generated answer"
              sources := if true then some [] else none
              query := "show me my stats"
              model_used := envFetchErr.generatorModel }
          genCalls :=
            [RAGService.conversationalGenRequest "show me my stats"]
          branch := .conversational
          blockedOnInit := false
          statsFetched := true
          statsContext := none } ∧
      RAGService.query envInfoErr true "Hey!" 3 none true none false = .ok
        { response :=
            { answer := "generated answer"
              sources := if true then some [] else none
              query := "Hey!"
              model_used := envInfoErr.generatorModel }
          genCalls := [RAGService.conversationalGenRequest "Hey!"]
          branch := .conversational
          blockedOnInit := false
          statsFetched :=
            RAGService.is_stats_query "Hey!" && (none : Option String).isSome
              && false
          statsContext :=
            match (none : Option String) with
            | some u2 =>
              if RAGService.is_stats_query "Hey!" && false then
                RAGService.fetch_user_stats envInfoErr u2
              else none
            | none => none }) :=
  ⟨rfl, rfl, rfl, rfl,
    rag_query_error_semantics envRetrieveErr envGenErr envFetchErr envInfoErr
      "How can I avoid phone distractions?" "Hey!" "show me my stats" "Hey!"
      3 none true none false "u1" 5 5 5 sampleErr sampleErr sampleErr
      sampleErr [lowResult] [lowResult] [lowResult] "generated answer"
      "generated answer" rfl (by decide) rfl rfl (by decide) rfl
      (by decide) rfl (by decide) rfl rfl (by decide) rfl (by decide) rfl
      rfl rfl (by decide) rfl⟩

set_option maxRecDepth 10000 in
/-- Claim C5 (counterexample): on the stats-analysis prompt variant of
`query_with_conversation`, an 8-turn history is rendered as only the
last three turns (turn 3, which the claim requires, is absent while
turn 6 is present), and the rendered history follows the current
question instead of preceding it. -/
theorem stats_variant_renders_last_three_after_question :
    ((RAGService.query_with_conversation envMulti true "show me my stats"
        hist8 3 none true (some "u1") true).toOption.map
      (fun out => out.genCalls.map (fun r =>
        r.context_documents.map (fun p =>
          (strContains p "hmsg3", strContains p "hmsg6",
            containsInOrder p.toList
              ["User Question: show me my stats".toList, "hmsg6".toList]))))) =
    some [[(false, true, true)]] := by
  rfl

theorem qwc_reduce_conversational_error (env : RagEnv) (q : String)
    (hist : List ConversationTurn) (top_k : Nat) (cf : Option String)
    (inc : Bool) (uid : Option String) (db : Bool)
    (results : List SearchResult) (e : RagError)
    (hret : env.retrieveResults q top_k
      (cf.map (fun c => [("category", c)])) = .ok results)
    (hconv : RAGService.isConversational results = true)
    (hq : RAGService.is_stats_query q = false)
    (hgen : env.generate
      { query := q
        context_documents :=
          [build_conversation_aware_prompt q [] hist PRODUCTIVITY_COACH_PROMPT]
        system_prompt := some "" } = .error e) :
    RAGService.query_with_conversation env true q hist top_k cf inc uid db =
      .error e := by
  simp only [RAGService.query_with_conversation, hret, hconv, hq,
    Bool.not_false, Bool.true_and, Bool.and_true, if_true]
  rw [hgen]

theorem qwc_reduce_standard_error (env : RagEnv) (q : String)
    (hist : List ConversationTurn) (top_k : Nat) (cf : Option String)
    (inc : Bool) (uid : Option String) (db : Bool)
    (results : List SearchResult) (e : RagError)
    (hret : env.retrieveResults q top_k
      (cf.map (fun c => [("category", c)])) = .ok results)
    (hconv : RAGService.isConversational results = false)
    (hq : RAGService.is_stats_query q = false)
    (hgen : env.generate
      { query := q
        context_documents :=
          [build_conversation_aware_prompt q
            (results.map (fun r => r.document.content)) hist
            PRODUCTIVITY_COACH_PROMPT]
        system_prompt := some "" } = .error e) :
    RAGService.query_with_conversation env true q hist top_k cf inc uid db =
      .error e := by
  simp only [RAGService.query_with_conversation, hret, hconv, hq,
    Bool.and_false, Bool.false_and, Bool.false_eq_true, if_false]
  rw [hgen]

/-- Claim C5 (amended): with history supplied to
`query_with_conversation`, the conversational and standard RAG variants
receive the conversation-aware prompt, which renders exactly the last
six of eight turns as role-labelled lines in original order before the
current question; the stats-analysis variant instead appends a summary
of only the last three turns (content truncated to 100 characters)
after the question. -/
theorem conv_history_rendering (env : RagEnv) (q1 q2 q3 : String)
    (hist : List ConversationTurn) (top_k : Nat) (cf : Option String)
    (inc : Bool) (uid : Option String) (db : Bool) (u : String)
    (results1 results2 results3 : List SearchResult) (stats : UserStats)
    (docs : List String) (sys : String)
    (out1 out2 out3 : RAGService.ConvOutcome)
    (hlen : hist.length = 8)
    (hq1 : RAGService.is_stats_query q1 = false)
    (hret1 : env.retrieveResults q1 top_k
      (cf.map (fun c => [("category", c)])) = .ok results1)
    (hconv1 : RAGService.isConversational results1 = true)
    (hout1 : RAGService.query_with_conversation env true q1 hist top_k cf
      inc uid db = .ok out1)
    (hq2 : RAGService.is_stats_query q2 = false)
    (hret2 : env.retrieveResults q2 top_k
      (cf.map (fun c => [("category", c)])) = .ok results2)
    (hconv2 : RAGService.isConversational results2 = false)
    (hout2 : RAGService.query_with_conversation env true q2 hist top_k cf
      inc uid db = .ok out2)
    (hq3 : RAGService.is_stats_query q3 = true)
    (hfetch : RAGService.fetch_user_stats env u = some stats)
    (hret3 : env.retrieveResults q3 top_k
      (cf.map (fun c => [("category", c)])) = .ok results3)
    (hout3 : RAGService.query_with_conversation env true q3 hist top_k cf
      inc (some u) true = .ok out3) :
    out1.genCalls =
      [{ query := q1
         context_documents :=
           [build_conversation_aware_prompt q1 [] hist
             PRODUCTIVITY_COACH_PROMPT]
         system_prompt := some "" }] ∧
    out2.genCalls =
      [{ query := q2
         context_documents :=
           [build_conversation_aware_prompt q2
             (results2.map (fun r => r.document.content)) hist
             PRODUCTIVITY_COACH_PROMPT]
         system_prompt := some "" }] ∧
    takeLast 6 hist = hist.drop 2 ∧
    (takeLast 6 hist).length = 6 ∧
    build_conversation_aware_prompt q1 docs hist sys =
      sys ++ "\n" ++
        ("\n\nPrevious Conversation:\n" ++
          String.intercalate "\n" ((hist.drop 2).map historyLine) ++ "\n") ++
        "\n\nKnowledge Base Context:\n" ++ convContextText docs ++
        "\n\nCurrent User Message: " ++ q1 ++ convClosing ∧
    out3.genCalls =
      [{ query := q3
         context_documents :=
           [build_stats_analysis_prompt q3 stats
               ((results3.map (fun r => r.document.content)).take 2) ++
             ("\n\nRecent Conversation:\n" ++
               String.intercalate "\n"
                 ((hist.drop 5).map RAGService.statsHistoryLine) ++
               "\n\nConsider the conversation context when providing insights.")]
         system_prompt := some "" }] := by
  have htake6 : takeLast 6 hist = hist.drop 2 := by
    rw [takeLast, hlen]
  have htake3 : takeLast 3 hist = hist.drop 5 := by
    rw [takeLast, hlen]
  have hne : hist.isEmpty = false := by
    cases hist
    · simp at hlen
    · rfl
  refine ⟨?_, ?_, htake6, ?_, ?_, ?_⟩
  · cases hg : env.generate
        { query := q1
          context_documents :=
            [build_conversation_aware_prompt q1 [] hist
              PRODUCTIVITY_COACH_PROMPT]
          system_prompt := some "" } with
    | error e =>
      have heq := qwc_reduce_conversational_error env q1 hist top_k cf inc
        uid db results1 e hret1 hconv1 hq1 hg
      rw [heq] at hout1
      exact absurd hout1 (by simp)
    | ok a =>
      have heq := qwc_reduce_conversational env q1 hist top_k cf inc uid db
        results1 a hret1 hconv1 hq1 hg
      rw [heq] at hout1
      simp only [Except.ok.injEq] at hout1
      subst hout1
      rfl
  · cases hg : env.generate
        { query := q2
          context_documents :=
            [build_conversation_aware_prompt q2
              (results2.map (fun r => r.document.content)) hist
              PRODUCTIVITY_COACH_PROMPT]
          system_prompt := some "" } with
    | error e =>
      have heq := qwc_reduce_standard_error env q2 hist top_k cf inc uid db
        results2 e hret2 hconv2 hq2 hg
      rw [heq] at hout2
      exact absurd hout2 (by simp)
    | ok a =>
      have heq := qwc_reduce_standard env q2 hist top_k cf inc uid db
        results2 a hret2 hconv2 hq2 hg
      rw [heq] at hout2
      simp only [Except.ok.injEq] at hout2
      subst hout2
      rfl
  · rw [htake6, List.length_drop, hlen]
  · rw [build_conversation_aware_prompt]
    have hpos : hist.length > 0 := by rw [hlen]; decide
    rw [if_pos hpos, htake6]
  · cases hg : env.generate
        { query := q3
          context_documents :=
            [RAGService.statsPromptWithHistory q3 stats
              (results3.map (fun r => r.document.content)) hist]
          system_prompt := some "" } with
    | error e =>
      have heq := qwc_reduce_stats_error env q3 hist top_k cf inc u results3
        stats e hret3 hq3 hfetch hg
      rw [heq] at hout3
      exact absurd hout3 (by simp)
    | ok a =>
      have heq := qwc_reduce_stats env q3 hist top_k cf inc u results3
        stats a hret3 hq3 hfetch hg
      rw [heq] at hout3
      simp only [Except.ok.injEq] at hout3
      subst hout3
      simp only [RAGService.statsPromptWithHistory,
        RAGService.recentConversationBlock, hne, htake3,
        Bool.false_eq_true, if_false]

/-- Witness for the C5 amended theorem with an 8-turn history. -/
theorem conv_history_rendering_witness :
    hist8.length = 8 ∧
    (c5Out1.genCalls =
      [{ query := "Hey!"
         context_documents :=
           [build_conversation_aware_prompt "Hey!" [] hist8
             PRODUCTIVITY_COACH_PROMPT]
         system_prompt := some "" }] ∧
    c5Out2.genCalls =
      [{ query := "How can I avoid phone distractions?"
         context_documents :=
           [build_conversation_aware_prompt
             "How can I avoid phone distractions?"
             ([highResult].map (fun r => r.document.content)) hist8
             PRODUCTIVITY_COACH_PROMPT]
         system_prompt := some "" }] ∧
    takeLast 6 hist8 = hist8.drop 2 ∧
    (takeLast 6 hist8).length = 6 ∧
    build_conversation_aware_prompt "Hey!" ["tip one"] hist8 "SYS" =
      "SYS" ++ "\n" ++
        ("\n\nPrevious Conversation:\n" ++
          String.intercalate "\n" ((hist8.drop 2).map historyLine) ++ "\n") ++
        "\n\nKnowledge Base Context:\n" ++ convContextText ["tip one"] ++
        "\n\nCurrent User Message: " ++ "Hey!" ++ convClosing ∧
    c10Out2.genCalls =
      [{ query := "show me my stats"
         context_documents :=
           [build_stats_analysis_prompt "show me my stats" sampleStats
               (([lowResult].map (fun r => r.document.content)).take 2) ++
             ("\n\nRecent Conversation:\n" ++
               String.intercalate "\n"
                 ((hist8.drop 5).map RAGService.statsHistoryLine) ++
               "\n\nConsider the conversation context when providing insights.")]
         system_prompt := some "" }]) :=
  ⟨rfl,
    conv_history_rendering envMulti "Hey!"
      "How can I avoid phone distractions?" "show me my stats" hist8 3 none
      true none false "u1" [lowResult] [highResult] [lowResult] sampleStats
      ["tip one"] "SYS" c5Out1 c5Out2 c10Out2 rfl (by decide) rfl
      (by decide) rfl (by decide) rfl (by decide) rfl (by decide) rfl rfl
      rfl⟩

theorem mem_insertDesc {x y : String × QdrantVectorStore.StorePoint × ℚ} :
    ∀ {l}, y ∈ QdrantVectorStore.insertDesc x l → y = x ∨ y ∈ l := by
  intro l
  induction l with
  | nil =>
    intro h
    simp only [QdrantVectorStore.insertDesc] at h
    exact Or.inl (List.mem_singleton.mp h)
  | cons a t ih =>
    intro h
    simp only [QdrantVectorStore.insertDesc] at h
    by_cases hc : a.2.2 < x.2.2
    · rw [if_pos hc] at h
      rcases List.mem_cons.mp h with rfl | h
      · exact Or.inl rfl
      · exact Or.inr h
    · rw [if_neg hc] at h
      rcases List.mem_cons.mp h with rfl | h
      · exact Or.inr (List.mem_cons_self _ _)
      · rcases ih h with h | h
        · exact Or.inl h
        · exact Or.inr (List.mem_cons_of_mem _ h)

theorem mem_sortDesc {y : String × QdrantVectorStore.StorePoint × ℚ} :
    ∀ {l}, y ∈ QdrantVectorStore.sortDesc l → y ∈ l := by
  intro l
  induction l with
  | nil => intro h; simp [QdrantVectorStore.sortDesc] at h
  | cons a t ih =>
    intro h
    simp only [QdrantVectorStore.sortDesc, List.foldr_cons] at h
    rcases mem_insertDesc h with rfl | h
    · exact List.mem_cons_self _ _
    · exact List.mem_cons_of_mem _ (ih h)

/-- Every search result reflects some stored entry: its id and content
come from an entry currently held in the collection. -/

theorem search_mem_store (st : QdrantVectorStore.StoreState)
    (emb : List ℚ) (k : Nat) (f : Option (List (String × String)))
    (r : SearchResult) (hr : r ∈ QdrantVectorStore.search st emb k f) :
    ∃ e ∈ st, r.document.id = e.1 ∧ r.document.content = e.2.content := by
  simp only [QdrantVectorStore.search] at hr
  rcases List.mem_map.mp hr with ⟨p, hp, hgp⟩
  rw [List.enum_eq_zip_range] at hp
  have hp2 := (List.of_mem_zip hp).2
  have hp3 := List.mem_of_mem_take hp2
  have hp4 := mem_sortDesc hp3
  rcases List.mem_map.mp hp4 with ⟨e, he, hpe⟩
  refine ⟨e, List.mem_of_mem_filter he, ?_, ?_⟩
  · rw [← hgp, ← hpe]
  · rw [← hgp, ← hpe]

theorem upsertPoint_all_eq (st : QdrantVectorStore.StoreState) (id : String)
    (p : QdrantVectorStore.StorePoint) :
    ∀ x ∈ QdrantVectorStore.upsertPoint st id p, x.1 = id → x = (id, p) := by
  intro x hx hid
  simp only [QdrantVectorStore.upsertPoint] at hx
  by_cases hc : st.any (fun e => e.1 == id) = true
  · rw [if_pos hc] at hx
    rcases List.mem_map.mp hx with ⟨e, he, hex⟩
    by_cases hbe : (e.1 == id) = true
    · rw [if_pos hbe] at hex
      exact hex.symm
    · rw [if_neg hbe] at hex
      subst hex
      exact absurd (by simp [hid]) hbe
  · rw [if_neg hc] at hx
    rcases List.mem_append.mp hx with hx | hx
    · exfalso
      apply hc
      rw [List.any_eq_true]
      exact ⟨x, hx, by simp [hid]⟩
    · exact List.mem_singleton.mp hx

/-- Claim C9: `add_documents` raises the `ValueError` on a length
mismatch, accepts the empty batch leaving the store unchanged, and
upserts by document id, so that any search result surfacing an
overwritten id shows only the latest content. -/

theorem qdrant_add_documents_semantics (st st1 st2 : QdrantVectorStore.StoreState)
    (docs : List Document) (embs : List (List ℚ)) (d d2 : Document)
    (v1 v2 emb : List ℚ) (k : Nat) (f : Option (List (String × String)))
    (r : SearchResult)
    (hlen : docs.length ≠ embs.length)
    (hid : d2.id = d.id)
    (h1 : QdrantVectorStore.add_documents st [d] [v1] = .ok st1)
    (h2 : QdrantVectorStore.add_documents st1 [d2] [v2] = .ok st2)
    (hr : r ∈ QdrantVectorStore.search st2 emb k f)
    (hrid : r.document.id = d.id) :
    QdrantVectorStore.add_documents st docs embs =
      .error (.valueError (QdrantVectorStore.mismatchMsg docs.length embs.length)) ∧
    QdrantVectorStore.add_documents st [] [] = .ok st ∧
    r.document.content = d2.content := by
  refine ⟨?_, rfl, ?_⟩
  · simp only [QdrantVectorStore.add_documents]
    rw [if_pos hlen]
  · have h2eq : QdrantVectorStore.add_documents st1 [d2] [v2] = .ok
        (QdrantVectorStore.upsertPoint st1 d2.id
          { vector := v2, content := d2.content, payload := d2.metadata }) := by
      simp [QdrantVectorStore.add_documents]
    rw [h2eq] at h2
    simp only [Except.ok.injEq] at h2
    subst h2
    rcases search_mem_store _ emb k f r hr with ⟨e, he, heid, hecontent⟩
    have hkey : e.1 = d2.id := by
      rw [← heid, hrid, hid]
    have := upsertPoint_all_eq st1 d2.id _ e he hkey
    rw [hecontent, this]

/-- Witness for C9: adding "doc1" twice and searching. -/
theorem qdrant_add_documents_semantics_witness :
    (([storeDocOld] : List Document).length ≠ ([] : List (List ℚ)).length) ∧
    QdrantVectorStore.add_documents []
        [storeDocOld] [[1]] =
      .ok [("doc1", { vector := [1], content := "old content", payload := [] })] ∧
    QdrantVectorStore.add_documents
        [("doc1", { vector := [1], content := "old content", payload := [] })]
        [storeDocNew] [[1]] =
      .ok [("doc1", { vector := [1], content := "new content", payload := [] })] ∧
    (QdrantVectorStore.add_documents ([] : QdrantVectorStore.StoreState)
        [storeDocOld] [] =
      .error (.valueError
        (QdrantVectorStore.mismatchMsg
          ([storeDocOld] : List Document).length
          ([] : List (List ℚ)).length)) ∧
    QdrantVectorStore.add_documents ([] : QdrantVectorStore.StoreState) [] [] =
      .ok ([] : QdrantVectorStore.StoreState) ∧
    ({ document := { id := "doc1", content := "new content", embedding := none,
                     metadata := [] }
       score := QdrantVectorStore.dot [1] [1]
       rank := 0 } : SearchResult).document.content = storeDocNew.content) :=
  ⟨by decide, rfl, rfl,
    qdrant_add_documents_semantics []
      [("doc1", { vector := [1], content := "old content", payload := [] })]
      [("doc1", { vector := [1], content := "new content", payload := [] })]
      [storeDocOld] [] storeDocOld storeDocNew [1] [1] [1] 1 none
      { document := { id := "doc1", content := "new content",
                      embedding := none, metadata := [] }
        score := QdrantVectorStore.dot [1] [1]
        rank := 0 }
      (by decide) rfl rfl rfl (List.mem_singleton.mpr rfl) rfl⟩
